import Mathlib

/-!
# HandSimDevice: control core of the simulated Barrett hand

A shallow embedding of `oro_barrett_sim/src/hand_sim_device.cpp`.

Modelling conventions
* `double` values are exact rationals (`ℚ`); rounding, infinities and NaN are not modelled.
* C++ arrays and vectors that are only indexed (`boost::array`, `std::vector`,
  `Eigen::VectorXd` of fixed size) are total maps `Nat → α`; only in-range
  indices are ever read or written by the loops below.
* The four per-type command vectors are resized by the input ports, so they are
  lists and their length is checked as in the source.
* A `for` loop with an early `return` is a recursion over the list of loop
  indices in which the body yields `none` at a `return`.
* External collaborators (Gazebo joints, KDL trapezoidal profiles, the RTT
  clock, the RTT input ports) are inputs of the cycle.
-/

namespace oro_barrett_sim

/-- Command mode byte of `oro_barrett_msgs::BHandCmd`.  The six named constants
are the case labels of the `switch` in `writeDevice`, hence pairwise distinct;
`other raw` is a byte of value `raw` that is none of the six. -/
inductive Mode where
  | MODE_SAME
  | MODE_IDLE
  | MODE_TORQUE
  | MODE_PID
  | MODE_VELOCITY
  | MODE_TRAPEZOIDAL
  | other (raw : Nat)
  deriving DecidableEq, Repr

/-- Message `oro_barrett_msgs::BHandCmd`: one mode and one value per finger. -/
structure BHandCmd where
  mode : Nat → Mode
  cmd : Nat → ℚ

/-- Top-level run mode of the hand device. -/
inductive RunMode where
  | IDLE
  | INITIALIZE
  | RUN
  deriving DecidableEq, Repr

/-- Sub-state of the initialisation sequence. -/
inductive InitState where
  | INIT_FINGERS
  | SEEK_FINGERS
  | SEEK_SPREAD
  | INIT_CLOSE
  deriving DecidableEq, Repr

/-- Parameters of a `KDL::VelocityProfile_Trap`: velocity and acceleration
limits given at construction, start and end position given by `SetProfile`. -/
structure VelocityProfile_Trap where
  maxvel : ℚ
  maxacc : ℚ
  startpos : ℚ
  endpos : ℚ
  deriving DecidableEq, Repr

/-- The call `SetProfile(pos1, pos2)` records the new start and end position. -/
def VelocityProfile_Trap.SetProfile (g : VelocityProfile_Trap) (pos1 pos2 : ℚ) :
    VelocityProfile_Trap :=
  { g with startpos := pos1, endpos := pos2 }

/-- What a cycle reads from its collaborators besides the input ports: the RTT
clock (`rtt_now i` is the reading taken while finger `i` is processed), the KDL
profile samplers `Pos`, `Vel`, and the Gazebo reaction torque
`GetForceTorque(0).body2Torque.z` of each joint. -/
structure Collaborators where
  rtt_now : Nat → ℚ
  Pos : VelocityProfile_Trap → ℚ → ℚ
  Vel : VelocityProfile_Trap → ℚ → ℚ
  body2TorqueZ : Nat → ℚ

/-- Member variables of `HandSimDevice` used by the control core. -/
structure HandSimDevice where
  run_mode : RunMode
  init_state : InitState
  joint_cmd : BHandCmd
  joint_position : Nat → ℚ
  joint_velocity : Nat → ℚ
  joint_torque : Nat → ℚ
  joint_torque_max : Nat → ℚ
  joint_torque_cmd : List ℚ
  joint_position_cmd : List ℚ
  joint_velocity_cmd : List ℚ
  joint_trapezoidal_cmd : List ℚ
  compliance_enabled : Bool
  breakaway_torque : ℚ
  stop_torque : ℚ
  p_gain : ℚ
  d_gain : ℚ
  velocity_gain : ℚ
  link_torque : Nat → ℚ
  fingertip_torque : Nat → ℚ
  breakaway_angle : Nat → ℚ
  torque_switches : Nat → Bool
  trap_generators : Nat → VelocityProfile_Trap
  trap_start_times : Nat → ℚ

/-- Number of pucks (fingers) of the hand. -/
def N_PUCKS : Nat := 4

/-- Number of joints of the hand. -/
def DOF : Nat := 8

/-- Joint ids of a finger: returns the success flag and the two out-parameters,
which keep the values passed in when the finger id is out of range. -/
def fingerToJointIDs (finger_id : Nat) (medial_id distal_id : Nat) : Bool × Nat × Nat :=
  if finger_id < 3 then
    (true, finger_id + 2, finger_id + 5)
  else if finger_id = 3 then
    (true, 0, 1)
  else
    (false, medial_id, distal_id)

/-- Medial joint id assigned by `fingerToJointIDs`. -/
def medialOf (finger_id : Nat) : Nat := (fingerToJointIDs finger_id 0 0).2.1

/-- Distal joint id assigned by `fingerToJointIDs`. -/
def distalOf (finger_id : Nat) : Nat := (fingerToJointIDs finger_id 0 0).2.2

/-- Transmission ratio between the two finger joints. -/
def FINGER_JOINT_RATIO : ℚ := 1 / 3

/-- Gain used to couple the two finger joints. -/
def KNUCKLE_GAIN : ℚ := 10

/-- The control-law `switch` of `writeSim` for finger `i`: the local
`joint_torque`, or `none` when the `default` branch returns. -/
def fingerTorque (c : Collaborators) (d : HandSimDevice) (i : Nat) : Option ℚ :=
  let mid := medialOf i
  let did := distalOf i
  let cmd := d.joint_cmd.cmd i
  let pos := d.joint_position mid + (if i = 3 then 0 else d.joint_position did)
  let vel := d.joint_velocity mid + (if i = 3 then 0 else d.joint_velocity did)
  match d.joint_cmd.mode i with
  | Mode.MODE_IDLE => some 0
  | Mode.MODE_TRAPEZOIDAL =>
      let sample_secs := c.rtt_now i - d.trap_start_times i
      some (d.p_gain * (c.Pos (d.trap_generators i) sample_secs - pos) +
            d.d_gain * (c.Vel (d.trap_generators i) sample_secs - vel))
  | Mode.MODE_PID => some (d.p_gain * (cmd - pos) - d.d_gain * vel)
  | Mode.MODE_VELOCITY => some (d.velocity_gain * (cmd - vel))
  | Mode.MODE_TORQUE => some cmd
  | _ => none

/-- State threaded through the loop of `writeSim`: the device and the force
written by `SetForce` to each Gazebo joint in this cycle (`none`: not written). -/
structure SimState where
  dev : HandSimDevice
  force : Nat → Option ℚ

/-- Record `gazebo_joints[j]->SetForce(0, f)`. -/
def SimState.SetForce (s : SimState) (j : Nat) (f : ℚ) : SimState :=
  { s with force := Function.update s.force j (some f) }

/-- Spread branch (`i == 3`) of the loop body of `writeSim`. -/
def writeSimSpread (s : SimState) (joint_torque : ℚ) : SimState :=
  let spread_err := s.dev.joint_position 0 - s.dev.joint_position 1
  let spread_derr := s.dev.joint_velocity 0 - s.dev.joint_velocity 1
  let spread_constraint_force := 100 * spread_err + 0 * spread_derr
  (s.SetForce 0 (-spread_constraint_force + joint_torque)).SetForce 1
    (spread_constraint_force + joint_torque)

/-- First half of the TorqueSwitch branch: read the link and fingertip torque
and test the engage / disengage condition. -/
def torqueSwitchUpdate (c : Collaborators) (d : HandSimDevice) (i : Nat) (joint_torque : ℚ) :
    HandSimDevice :=
  let mid := medialOf i
  let did := distalOf i
  let d1 := { d with link_torque := Function.update d.link_torque i (c.body2TorqueZ mid) }
  let d2 := { d1 with
    fingertip_torque := Function.update d1.fingertip_torque i (c.body2TorqueZ did) }
  if !d2.torque_switches i then
    if d2.link_torque i > d2.breakaway_torque then
      { d2 with torque_switches := Function.update d2.torque_switches i true }
    else d2
  else
    if joint_torque < 0 ∧ d2.joint_position mid > 0.01 then
      { d2 with torque_switches := Function.update d2.torque_switches i false }
    else d2

/-- Second half of the TorqueSwitch branch: write the joint forces. -/
def torqueSwitchOutput (s : SimState) (i : Nat) (joint_torque : ℚ) : SimState :=
  let mid := medialOf i
  let did := distalOf i
  if !s.dev.torque_switches i then
    (s.SetForce mid joint_torque).SetForce did
      (KNUCKLE_GAIN * ( FINGER_JOINT_RATIO * s.dev.joint_position mid - s.dev.joint_position did))
  else
    if joint_torque > 0 then
      let s1 := (s.SetForce mid s.dev.breakaway_torque).SetForce did
        ( FINGER_JOINT_RATIO * joint_torque)
      { s1 with dev := { s1.dev with
          breakaway_angle := Function.update s1.dev.breakaway_angle i (s1.dev.joint_position did) } }
    else
      (s.SetForce mid joint_torque).SetForce did
        (KNUCKLE_GAIN * (s.dev.breakaway_angle i - s.dev.joint_position did))

/-- Body of the `for` loop of `writeSim` for finger `i`; `none` is the `return`
of the `default` branch. -/
def writeSimFinger (c : Collaborators) (i : Nat) (s : SimState) : Option SimState :=
  match fingerTorque c s.dev i with
  | none => none
  | some joint_torque =>
      if i = 3 then
        some (writeSimSpread s joint_torque)
      else
        some (torqueSwitchOutput { s with dev := torqueSwitchUpdate c s.dev i joint_torque }
          i joint_torque)

/-- The `for` loop of `writeSim` over the remaining finger indices. -/
def writeSimLoop (c : Collaborators) : List Nat → SimState → SimState
  | [], s => s
  | i :: rest, s =>
      match writeSimFinger c i s with
      | none => s
      | some s1 => writeSimLoop c rest s1

/-- `HandSimDevice::writeSim`: one write cycle towards the simulation. -/
def writeSim (c : Collaborators) (d : HandSimDevice) : SimState :=
  writeSimLoop c [0, 1, 2, 3] { dev := d, force := fun _ => none }

/-- Outcome of reading an RTT input port (`RTT::FlowStatus`): nothing was ever
written, only a sample that was read before, or a new sample. -/
inductive FlowStatus (α : Type) where
  | NoData
  | OldData (sample : α)
  | NewData (sample : α)

/-- The comparison `status == RTT::NewData`. -/
def FlowStatus.isNew {α : Type} : FlowStatus α → Bool
  | FlowStatus.NewData _ => true
  | _ => false

/-- What the five RTT input ports deliver in a `writeDevice` cycle.  For the
unified command only a new sample matters (`joint_cmd_tmp` is read under
`new_joint_cmd` only): `some u` is `NewData` with sample `u`. -/
structure Ports where
  joint_torque_in : FlowStatus (List ℚ)
  joint_position_in : FlowStatus (List ℚ)
  joint_velocity_in : FlowStatus (List ℚ)
  joint_trapezoidal_in : FlowStatus (List ℚ)
  joint_cmd_in : Option BHandCmd

/-- The call `port.readNewest(sample) == RTT::NewData`: a new sample overwrites
`sample` and yields `true`; an old sample is copied into `sample` as well
(`copy_old_data` defaults to true) and yields `false`; without data `sample` is kept. -/
def readNewest {α : Type} (port : FlowStatus α) (sample : α) : α × Bool :=
  match port with
  | FlowStatus.NewData v => (v, true)
  | FlowStatus.OldData v => (v, false)
  | FlowStatus.NoData => (sample, false)

/-- `HandSimDevice::doneMoving`. -/
def HandSimDevice.doneMoving (d : HandSimDevice) (pair_index : Nat) : Bool :=
  let ids := fingerToJointIDs pair_index 0 0
  let medial_id := ids.2.1
  let distal_id := ids.2.2
  decide (d.joint_velocity medial_id < 0.01) && decide (d.joint_velocity distal_id < 0.01)

/-- `HandSimDevice::withinTorqueLimits`. -/
def HandSimDevice.withinTorqueLimits (d : HandSimDevice) (joint_id : Nat) : Bool :=
  decide (|d.joint_torque joint_id| > d.joint_torque_max joint_id)

/-- Assignment `joint_cmd.mode[i] = m`. -/
def HandSimDevice.setMode (d : HandSimDevice) (i : Nat) (m : Mode) : HandSimDevice :=
  { d with joint_cmd := { d.joint_cmd with mode := Function.update d.joint_cmd.mode i m } }

/-- Assignment `joint_cmd.cmd[i] = v`. -/
def HandSimDevice.setCmd (d : HandSimDevice) (i : Nat) (v : ℚ) : HandSimDevice :=
  { d with joint_cmd := { d.joint_cmd with cmd := Function.update d.joint_cmd.cmd i v } }

/-- `HandSimDevice::open`: velocity command -1 to fingers 0, 1, 2. -/
def HandSimDevice.open (d : HandSimDevice) : HandSimDevice :=
  ((((((d.setMode 0 Mode.MODE_VELOCITY).setMode 1 Mode.MODE_VELOCITY).setMode 2
    Mode.MODE_VELOCITY).setCmd 0 (-1)).setCmd 1 (-1)).setCmd 2 (-1))

/-- `HandSimDevice::close`: velocity command +1 to fingers 0, 1, 2. -/
def HandSimDevice.close (d : HandSimDevice) : HandSimDevice :=
  ((((((d.setMode 0 Mode.MODE_VELOCITY).setMode 1 Mode.MODE_VELOCITY).setMode 2
    Mode.MODE_VELOCITY).setCmd 0 1).setCmd 1 1).setCmd 2 1)

/-- `HandSimDevice::initialize`. -/
def HandSimDevice.initialize (d : HandSimDevice) : HandSimDevice :=
  { { d with init_state := InitState.INIT_FINGERS } with run_mode := RunMode.INITIALIZE }

/-- `HandSimDevice::idle`: `joint_cmd.mode.assign(MODE_IDLE)` fills the mode array. -/
def HandSimDevice.idle (d : HandSimDevice) : HandSimDevice :=
  { d with run_mode := RunMode.IDLE,
           joint_cmd := { d.joint_cmd with mode := fun _ => Mode.MODE_IDLE } }

/-- `HandSimDevice::run`. -/
def HandSimDevice.run (d : HandSimDevice) : HandSimDevice :=
  { d with run_mode := RunMode.RUN }

/-- `HandSimDevice::setTorqueMode`. -/
def HandSimDevice.setTorqueMode (d : HandSimDevice) (joint_index : Nat) : HandSimDevice :=
  d.setMode joint_index Mode.MODE_TORQUE

/-- `HandSimDevice::setPositionMode`. -/
def HandSimDevice.setPositionMode (d : HandSimDevice) (joint_index : Nat) : HandSimDevice :=
  d.setMode joint_index Mode.MODE_PID

/-- `HandSimDevice::setVelocityMode`. -/
def HandSimDevice.setVelocityMode (d : HandSimDevice) (joint_index : Nat) : HandSimDevice :=
  d.setMode joint_index Mode.MODE_VELOCITY

/-- `HandSimDevice::setTrapezoidalMode`. -/
def HandSimDevice.setTrapezoidalMode (d : HandSimDevice) (joint_index : Nat) : HandSimDevice :=
  d.setMode joint_index Mode.MODE_TRAPEZOIDAL

/-- `HandSimDevice::setIdleMode`. -/
def HandSimDevice.setIdleMode (d : HandSimDevice) (joint_index : Nat) : HandSimDevice :=
  d.setMode joint_index Mode.MODE_IDLE

/-- State threaded through the finger loop of `writeDevice`: the device and the
four local "new data" flags, which the unified command may raise. -/
structure MuxState where
  dev : HandSimDevice
  new_torque_cmd : Bool
  new_position_cmd : Bool
  new_velocity_cmd : Bool
  new_trapezoidal_cmd : Bool

/-- The `if / else if` chain "Update the command" of the loop body of
`writeDevice` for finger `i`. -/
def updateCommand (c : Collaborators) (i : Nat) (st : MuxState) : MuxState :=
  let d := st.dev
  if st.new_torque_cmd = true ∧ d.joint_cmd.mode i = Mode.MODE_TORQUE then
    { st with dev := d.setCmd i (d.joint_torque_cmd.getD i 0) }
  else if st.new_position_cmd = true ∧ d.joint_cmd.mode i = Mode.MODE_PID then
    { st with dev := d.setCmd i (d.joint_position_cmd.getD i 0) }
  else if st.new_velocity_cmd = true ∧ d.joint_cmd.mode i = Mode.MODE_VELOCITY then
    { st with dev := d.setCmd i (d.joint_velocity_cmd.getD i 0) }
  else if st.new_trapezoidal_cmd = true ∧ d.joint_cmd.mode i = Mode.MODE_TRAPEZOIDAL then
    let d1 := d.setCmd i (d.joint_trapezoidal_cmd.getD i 0)
    let medial_id := (fingerToJointIDs i 0 0).2.1
    let g := (d1.trap_generators i).SetProfile (d1.joint_position medial_id) (d1.joint_cmd.cmd i)
    let d2 := { d1 with trap_generators := Function.update d1.trap_generators i g }
    { st with dev := { d2 with
        trap_start_times := Function.update d2.trap_start_times i (c.rtt_now i) } }
  else st

/-- Body of the finger loop of `writeDevice` for finger `i`, where
`joint_cmd_tmp` is `some` unified command exactly when `new_joint_cmd` holds.
`MODE_SAME` is the `continue` (the iteration ends with the state as it is);
`none` is the `return` of the `default` branch. -/
def writeDeviceFinger (c : Collaborators) (joint_cmd_tmp : Option BHandCmd) (i : Nat)
    (st : MuxState) : Option MuxState :=
  match joint_cmd_tmp with
  | none => some (updateCommand c i st)
  | some tmp =>
      match tmp.mode i with
      | Mode.MODE_SAME => some st
      | Mode.MODE_IDLE =>
          let st1 := { st with
            dev := { st.dev with joint_torque_cmd := List.set st.dev.joint_torque_cmd i 0 },
            new_torque_cmd := true }
          some (updateCommand c i { st1 with dev := st1.dev.setMode i (tmp.mode i) })
      | Mode.MODE_TORQUE =>
          let st1 := { st with
            dev := { st.dev with joint_torque_cmd := List.set st.dev.joint_torque_cmd i (tmp.cmd i) },
            new_torque_cmd := true }
          some (updateCommand c i { st1 with dev := st1.dev.setMode i (tmp.mode i) })
      | Mode.MODE_PID =>
          let st1 := { st with
            dev := { st.dev with
              joint_position_cmd := List.set st.dev.joint_position_cmd i (tmp.cmd i) },
            new_position_cmd := true }
          some (updateCommand c i { st1 with dev := st1.dev.setMode i (tmp.mode i) })
      | Mode.MODE_VELOCITY =>
          let st1 := { st with
            dev := { st.dev with
              joint_velocity_cmd := List.set st.dev.joint_velocity_cmd i (tmp.cmd i) },
            new_velocity_cmd := true }
          some (updateCommand c i { st1 with dev := st1.dev.setMode i (tmp.mode i) })
      | Mode.MODE_TRAPEZOIDAL =>
          let st1 := { st with
            dev := { st.dev with
              joint_trapezoidal_cmd := List.set st.dev.joint_trapezoidal_cmd i (tmp.cmd i) },
            new_trapezoidal_cmd := true }
          some (updateCommand c i { st1 with dev := st1.dev.setMode i (tmp.mode i) })
      | Mode.other _ => none

/-- The finger loop of `writeDevice` over the remaining finger indices. -/
def writeDeviceLoop (c : Collaborators) (joint_cmd_tmp : Option BHandCmd) :
    List Nat → MuxState → MuxState
  | [], st => st
  | i :: rest, st =>
      match writeDeviceFinger c joint_cmd_tmp i st with
      | none => st
      | some st1 => writeDeviceLoop c joint_cmd_tmp rest st1

/-- The `RUN` case of `writeDevice`: poll the ports, check the sizes, run the
finger loop. -/
def writeDeviceRun (c : Collaborators) (p : Ports) (d : HandSimDevice) : HandSimDevice :=
  let rt := readNewest p.joint_torque_in d.joint_torque_cmd
  let rp := readNewest p.joint_position_in d.joint_position_cmd
  let rv := readNewest p.joint_velocity_in d.joint_velocity_cmd
  let rz := readNewest p.joint_trapezoidal_in d.joint_trapezoidal_cmd
  let d1 := { d with
    joint_torque_cmd := rt.1, joint_position_cmd := rp.1,
    joint_velocity_cmd := rv.1, joint_trapezoidal_cmd := rz.1 }
  if d1.joint_torque_cmd.length ≠ N_PUCKS ∨ d1.joint_position_cmd.length ≠ N_PUCKS ∨
     d1.joint_velocity_cmd.length ≠ N_PUCKS ∨ d1.joint_trapezoidal_cmd.length ≠ N_PUCKS then
    d1
  else
    (writeDeviceLoop c p.joint_cmd_in [0, 1, 2, 3]
      { dev := d1, new_torque_cmd := rt.2, new_position_cmd := rp.2,
        new_velocity_cmd := rv.2, new_trapezoidal_cmd := rz.2 }).dev

/-- `HandSimDevice::writeDevice`: one command cycle. -/
def writeDevice (c : Collaborators) (p : Ports) (d : HandSimDevice) : HandSimDevice :=
  match d.run_mode with
  | RunMode.IDLE => d
  | RunMode.INITIALIZE =>
      match d.init_state with
      | InitState.INIT_FINGERS => { d with init_state := InitState.SEEK_FINGERS }
      | InitState.SEEK_FINGERS =>
          if d.doneMoving 0 && d.doneMoving 1 && d.doneMoving 2 then
            { d with init_state := InitState.SEEK_SPREAD }
          else d
      | InitState.SEEK_SPREAD =>
          if d.doneMoving 3 then { d with init_state := InitState.INIT_CLOSE } else d
      | InitState.INIT_CLOSE => { d.close with run_mode := RunMode.RUN }
  | RunMode.RUN => writeDeviceRun c p d

/-! ## Predicates of the specification, frame relations and sample inputs -/

/-- Modes for which the control-law switch of `writeSim` has a case. -/
def simRecognised (m : Mode) : Prop :=
  m = Mode.MODE_IDLE ∨ m = Mode.MODE_TRAPEZOIDAL ∨ m = Mode.MODE_PID ∨
    m = Mode.MODE_VELOCITY ∨ m = Mode.MODE_TORQUE

instance (m : Mode) : Decidable (simRecognised m) := by
  unfold simRecognised; infer_instance

/-- The members that `writeSim` reads and never writes coincide in two devices. -/
def sameReadOnly (d e : HandSimDevice) : Prop :=
  e.joint_cmd = d.joint_cmd ∧ e.joint_position = d.joint_position ∧
  e.joint_velocity = d.joint_velocity ∧ e.breakaway_torque = d.breakaway_torque ∧
  e.p_gain = d.p_gain ∧ e.d_gain = d.d_gain ∧ e.velocity_gain = d.velocity_gain ∧
  e.trap_generators = d.trap_generators ∧ e.trap_start_times = d.trap_start_times

/-- What the loop body of `writeSim` for finger `i` may write coincides in two states. -/
def sameFinger (i : Nat) (s t : SimState) : Prop :=
  t.dev.torque_switches i = s.dev.torque_switches i ∧
  t.dev.breakaway_angle i = s.dev.breakaway_angle i ∧
  t.dev.link_torque i = s.dev.link_torque i ∧
  t.dev.fingertip_torque i = s.dev.fingertip_torque i ∧
  t.force (medialOf i) = s.force (medialOf i) ∧
  t.force (distalOf i) = s.force (distalOf i)

/-- A device at rest with the gains set by the constructor: every finger idle,
every torque switch coupled. -/
def restDevice : HandSimDevice where
  run_mode := RunMode.RUN
  init_state := InitState.INIT_FINGERS
  joint_cmd := { mode := fun _ => Mode.MODE_IDLE, cmd := fun _ => 0 }
  joint_position := fun _ => 0
  joint_velocity := fun _ => 0
  joint_torque := fun _ => 0
  joint_torque_max := fun _ => 1.5
  joint_torque_cmd := [0, 0, 0, 0]
  joint_position_cmd := [0, 0, 0, 0]
  joint_velocity_cmd := [0, 0, 0, 0]
  joint_trapezoidal_cmd := [0, 0, 0, 0]
  compliance_enabled := false
  breakaway_torque := 2.5
  stop_torque := 3
  p_gain := 25
  d_gain := 1
  velocity_gain := 0.1
  link_torque := fun _ => 0
  fingertip_torque := fun _ => 0
  breakaway_angle := fun _ => 0
  torque_switches := fun _ => false
  trap_generators := fun _ => { maxvel := 1, maxacc := 0.1, startpos := 0, endpos := 0 }
  trap_start_times := fun _ => 0

/-- Collaborators of a quiet cycle in which joint `j` reports reaction torque `z j`. -/
def quietCollaborators (z : Nat → ℚ) : Collaborators where
  rtt_now := fun _ => 0
  Pos := fun g _ => g.startpos
  Vel := fun _ _ => 0
  body2TorqueZ := z

/-- Scenario of the spec: finger 0 in Torque mode with command 5. -/
def torqueScenario : HandSimDevice :=
  { restDevice with
    joint_cmd := { mode := fun i => if i = 0 then Mode.MODE_TORQUE else Mode.MODE_IDLE,
                   cmd := fun i => if i = 0 then 5 else 0 } }

/-- Scenario of the spec: the medial joint of finger 0 (joint 2) reports link torque 3. -/
def linkTorque3 : Collaborators :=
  quietCollaborators (fun j => if j = 2 then 3 else 0)

/-- Finger 0 in Breakaway and retracting: torque command -1, medial joint
(joint 2) at 0.5, distal joint (joint 5) at 0.2, breakaway angle latched at 0.3. -/
def retractScenario : HandSimDevice :=
  { restDevice with
    joint_cmd := { mode := fun i => if i = 0 then Mode.MODE_TORQUE else Mode.MODE_IDLE,
                   cmd := fun i => if i = 0 then -1 else 0 },
    joint_position := fun j => if j = 2 then 0.5 else if j = 5 then 0.2 else 0,
    breakaway_angle := fun i => if i = 0 then 0.3 else 0,
    torque_switches := fun i => decide (i = 0) }

/-- Finger 1 under position control: command 1, medial joint (joint 3) at 0.3
moving at 0.1, distal joint (joint 6) at 0.1 moving at 0.05. -/
def pidScenario : HandSimDevice :=
  { restDevice with
    joint_cmd := { mode := fun i => if i = 1 then Mode.MODE_PID else Mode.MODE_IDLE,
                   cmd := fun i => if i = 1 then 1 else 0 },
    joint_position := fun j => if j = 3 then 0.3 else if j = 6 then 0.1 else 0,
    joint_velocity := fun j => if j = 3 then 0.1 else if j = 6 then 0.05 else 0 }

/-- Finger 0 in Breakaway holding still: torque command 0, distal joint
(joint 5) at 0.2, breakaway angle latched at 0.3. -/
def holdScenario : HandSimDevice :=
  { restDevice with
    joint_cmd := { mode := fun i => if i = 0 then Mode.MODE_TORQUE else Mode.MODE_IDLE,
                   cmd := fun _ => 0 },
    joint_position := fun j => if j = 2 then 0.5 else if j = 5 then 0.2 else 0,
    breakaway_angle := fun i => if i = 0 then 0.3 else 0,
    torque_switches := fun i => decide (i = 0) }

/-- Modes for which the unified-command switch of `writeDevice` has a case. -/
def muxRecognised (m : Mode) : Prop :=
  m = Mode.MODE_SAME ∨ m = Mode.MODE_IDLE ∨ m = Mode.MODE_TORQUE ∨ m = Mode.MODE_PID ∨
    m = Mode.MODE_VELOCITY ∨ m = Mode.MODE_TRAPEZOIDAL

instance (m : Mode) : Decidable (muxRecognised m) := by
  unfold muxRecognised; infer_instance

/-- Everything the finger loop of `writeDevice` may write for finger `i`
coincides in two devices. -/
def sameSlot (i : Nat) (d e : HandSimDevice) : Prop :=
  e.joint_cmd.mode i = d.joint_cmd.mode i ∧ e.joint_cmd.cmd i = d.joint_cmd.cmd i ∧
  e.joint_torque_cmd[i]? = d.joint_torque_cmd[i]? ∧
  e.joint_position_cmd[i]? = d.joint_position_cmd[i]? ∧
  e.joint_velocity_cmd[i]? = d.joint_velocity_cmd[i]? ∧
  e.joint_trapezoidal_cmd[i]? = d.joint_trapezoidal_cmd[i]? ∧
  e.trap_generators i = d.trap_generators i ∧ e.trap_start_times i = d.trap_start_times i

/-- The lengths of the four command vectors and the joint positions coincide. -/
def sameShape (d e : HandSimDevice) : Prop :=
  e.joint_torque_cmd.length = d.joint_torque_cmd.length ∧
  e.joint_position_cmd.length = d.joint_position_cmd.length ∧
  e.joint_velocity_cmd.length = d.joint_velocity_cmd.length ∧
  e.joint_trapezoidal_cmd.length = d.joint_trapezoidal_cmd.length ∧
  e.joint_position = d.joint_position

/-- The vectors after polling the four per-type ports all have `N_PUCKS` entries. -/
def wellSized (p : Ports) (d : HandSimDevice) : Prop :=
  (readNewest p.joint_torque_in d.joint_torque_cmd).1.length = N_PUCKS ∧
  (readNewest p.joint_position_in d.joint_position_cmd).1.length = N_PUCKS ∧
  (readNewest p.joint_velocity_in d.joint_velocity_cmd).1.length = N_PUCKS ∧
  (readNewest p.joint_trapezoidal_in d.joint_trapezoidal_cmd).1.length = N_PUCKS

/-- State with which the finger loop of `writeDevice` starts: the vectors as
polled and the four "new data" flags of the ports. -/
def polled (p : Ports) (d : HandSimDevice) : MuxState :=
  { dev := { d with
      joint_torque_cmd := (readNewest p.joint_torque_in d.joint_torque_cmd).1,
      joint_position_cmd := (readNewest p.joint_position_in d.joint_position_cmd).1,
      joint_velocity_cmd := (readNewest p.joint_velocity_in d.joint_velocity_cmd).1,
      joint_trapezoidal_cmd := (readNewest p.joint_trapezoidal_in d.joint_trapezoidal_cmd).1 },
    new_torque_cmd := (readNewest p.joint_torque_in d.joint_torque_cmd).2,
    new_position_cmd := (readNewest p.joint_position_in d.joint_position_cmd).2,
    new_velocity_cmd := (readNewest p.joint_velocity_in d.joint_velocity_cmd).2,
    new_trapezoidal_cmd := (readNewest p.joint_trapezoidal_in d.joint_trapezoidal_cmd).2 }

/-- State in which the finger loop of `writeDevice` reaches finger `i`. -/
def reached (c : Collaborators) (p : Ports) (d : HandSimDevice) (i : Nat) : MuxState :=
  writeDeviceLoop c p.joint_cmd_in (List.range i) (polled p d)

/-- The per-type command vector that the "Update the command" chain copies
from when the finger is in mode `m` (empty for a mode without a stream). -/
def HandSimDevice.stream (d : HandSimDevice) : Mode → List ℚ
  | Mode.MODE_TORQUE => d.joint_torque_cmd
  | Mode.MODE_PID => d.joint_position_cmd
  | Mode.MODE_VELOCITY => d.joint_velocity_cmd
  | Mode.MODE_TRAPEZOIDAL => d.joint_trapezoidal_cmd
  | _ => []

/-- Whether the independent port of the stream of type `m` delivered new data. -/
def Ports.fresh (p : Ports) : Mode → Bool
  | Mode.MODE_TORQUE => p.joint_torque_in.isNew
  | Mode.MODE_PID => p.joint_position_in.isNew
  | Mode.MODE_VELOCITY => p.joint_velocity_in.isNew
  | Mode.MODE_TRAPEZOIDAL => p.joint_trapezoidal_in.isNew
  | _ => false

/-- Whether a unified-command entry of mode `e` raises the "new data" flag of
the stream of type `m` (the unified `switch` of `writeDevice`). -/
def raisesFlag (e m : Mode) : Bool :=
  match e, m with
  | Mode.MODE_IDLE, Mode.MODE_TORQUE => true
  | Mode.MODE_TORQUE, Mode.MODE_TORQUE => true
  | Mode.MODE_PID, Mode.MODE_PID => true
  | Mode.MODE_VELOCITY, Mode.MODE_VELOCITY => true
  | Mode.MODE_TRAPEZOIDAL, Mode.MODE_TRAPEZOIDAL => true
  | _, _ => false

/-- The stream of type `m` was updated this cycle, as seen when finger `i` is
processed: by its own port, or by a unified-command entry of a finger up to `i`. -/
def streamUpdated (p : Ports) (i : Nat) (m : Mode) : Prop :=
  p.fresh m = true ∨
    ∃ u, p.joint_cmd_in = some u ∧ ∃ j, j ≤ i ∧ raisesFlag (u.mode j) m = true

/-- Finger 0 in Torque mode with setpoint 0, in Run mode. -/
def torqueHeld : HandSimDevice :=
  { restDevice with
    joint_cmd := { mode := fun i => if i = 0 then Mode.MODE_TORQUE else Mode.MODE_IDLE,
                   cmd := fun _ => 0 } }

/-- New torque vector 7,7,7,7 together with a unified command of mode `m` for
every finger. -/
def torque7With (m : Mode) : Ports where
  joint_torque_in := FlowStatus.NewData [7, 7, 7, 7]
  joint_position_in := FlowStatus.NoData
  joint_velocity_in := FlowStatus.OldData [0, 0, 0, 0]
  joint_trapezoidal_in := FlowStatus.NoData
  joint_cmd_in := some { mode := fun _ => m, cmd := fun _ => 0 }

/-- Spread finger in Torque mode with command 2, joint 0 at 0.3 and joint 1 at 0.1. -/
def spreadScenario : HandSimDevice :=
  { restDevice with
    joint_cmd := { mode := fun i => if i = 3 then Mode.MODE_TORQUE else Mode.MODE_IDLE,
                   cmd := fun i => if i = 3 then 2 else 0 },
    joint_position := fun j => if j = 0 then 0.3 else if j = 1 then 0.1 else 0 }

/-- A torque vector with only three entries arrives together with a unified
command that asks for Velocity mode on every finger. -/
def shortTorque : Ports where
  joint_torque_in := FlowStatus.NewData [1, 2, 3]
  joint_position_in := FlowStatus.NoData
  joint_velocity_in := FlowStatus.NoData
  joint_trapezoidal_in := FlowStatus.NoData
  joint_cmd_in := some { mode := fun _ => Mode.MODE_VELOCITY, cmd := fun _ => 1 }

/-- A unified command whose entry for finger 1 has the unrecognised mode byte 99:
Velocity for finger 0, Position for fingers 2 and 3, value 0.5 everywhere. -/
def badSecond : Ports where
  joint_torque_in := FlowStatus.NoData
  joint_position_in := FlowStatus.OldData [0, 0, 0, 0]
  joint_velocity_in := FlowStatus.NoData
  joint_trapezoidal_in := FlowStatus.NoData
  joint_cmd_in := some
    { mode := fun i => if i = 0 then Mode.MODE_VELOCITY else if i = 1 then Mode.other 99
        else Mode.MODE_PID,
      cmd := fun _ => 0.5 }

/-- Only the torque port delivers new data: the vector 7,7,7,7. -/
def torque7 : Ports where
  joint_torque_in := FlowStatus.NewData [7, 7, 7, 7]
  joint_position_in := FlowStatus.NoData
  joint_velocity_in := FlowStatus.NoData
  joint_trapezoidal_in := FlowStatus.NoData
  joint_cmd_in := none

/-- The torque port delivers 7,7,7,7, the velocity port delivers 9,9,9,9 and the
unified command asks for Velocity mode with value 0.5 on every finger. -/
def velocityHalf : Ports where
  joint_torque_in := FlowStatus.NewData [7, 7, 7, 7]
  joint_position_in := FlowStatus.NoData
  joint_velocity_in := FlowStatus.NewData [9, 9, 9, 9]
  joint_trapezoidal_in := FlowStatus.NoData
  joint_cmd_in := some { mode := fun _ => Mode.MODE_VELOCITY, cmd := fun _ => 0.5 }

/-- Consecutive `writeDevice` cycles, one per entry of the list of inputs. -/
def writeDeviceCycles : List (Collaborators × Ports) → HandSimDevice → HandSimDevice
  | [], d => d
  | x :: rest, d => writeDeviceCycles rest (writeDevice x.1 x.2 d)

/-- Inputs of a cycle in which no port delivers anything. -/
def silentCycle : Collaborators × Ports :=
  (quietCollaborators fun _ => 0,
   { joint_torque_in := FlowStatus.NoData, joint_position_in := FlowStatus.NoData,
     joint_velocity_in := FlowStatus.NoData, joint_trapezoidal_in := FlowStatus.NoData,
     joint_cmd_in := none })

/-- A hand whose eight joints all report the smoothed velocity 0.005. -/
def slowHand : HandSimDevice :=
  { restDevice with joint_velocity := fun _ => 0.005 }

/-- A hand in the sub-state SeekFingers whose finger joints 2..7 all move at -1,
the velocity that the open command asks for. -/
def openingHand : HandSimDevice :=
  { restDevice with
    run_mode := RunMode.INITIALIZE, init_state := InitState.SEEK_FINGERS,
    joint_velocity := fun j => if 2 ≤ j then -1 else 0 }

/-- A hand whose joint 0 measures torque 2, above its limit 1.5. -/
def overloadedHand : HandSimDevice :=
  { restDevice with joint_torque := fun _ => 2 }

/-- Number of `writeDevice` cycles the initialisation sequence needs at least to
reach the sub-state InitClose. -/
def stepsToClose : InitState → Nat
  | InitState.INIT_FINGERS => 3
  | InitState.SEEK_FINGERS => 2
  | InitState.SEEK_SPREAD => 1
  | InitState.INIT_CLOSE => 0

/-- Every finger idle, the medial joint of finger 0 (joint 2) bent to 0.3 and
spread joint 0 at 0.1, all other joints at 0. -/
def idleBent : HandSimDevice :=
  { restDevice with joint_position := fun j => if j = 2 then 0.3 else if j = 0 then 0.1 else 0 }

/-- Finger 0 idle and Coupled with its distal joint (joint 5) at 0.2 and the
breakaway angle still at its initial value 0. -/
def idlePushed : HandSimDevice :=
  { restDevice with joint_position := fun j => if j = 5 then 0.2 else 0 }

/-- Finger 0 closing in Torque mode with command 5, distal joint (joint 5) at 0.2. -/
def closingScenario : HandSimDevice :=
  { torqueScenario with joint_position := fun j => if j = 5 then 0.2 else 0 }

/-- No per-type port delivers new data. -/
def Ports.quiet (p : Ports) : Prop :=
  p.joint_torque_in.isNew = false ∧ p.joint_position_in.isNew = false ∧
  p.joint_velocity_in.isNew = false ∧ p.joint_trapezoidal_in.isNew = false

/-- Only the unified port delivers: Torque mode with value 3 for finger 0, Idle
for finger 1, Trapezoidal with value 3 for finger 2 and `MODE_SAME` for finger 3. -/
def mixedUnified : Ports where
  joint_torque_in := FlowStatus.NoData
  joint_position_in := FlowStatus.NoData
  joint_velocity_in := FlowStatus.OldData [0, 0, 0, 0]
  joint_trapezoidal_in := FlowStatus.NoData
  joint_cmd_in := some
    { mode := fun i => if i = 0 then Mode.MODE_TORQUE else if i = 1 then Mode.MODE_IDLE
        else if i = 2 then Mode.MODE_TRAPEZOIDAL else Mode.MODE_SAME,
      cmd := fun _ => 3 }

/-- Profile that `SetProfile` leaves for finger `i` when the trapezoidal branch
of the "Update the command" chain runs with target `target`: it starts at the
position of the medial joint of the finger. -/
def reinitialised (d : HandSimDevice) (i : Nat) (target : ℚ) : VelocityProfile_Trap :=
  (d.trap_generators i).SetProfile (d.joint_position (if i = 3 then 0 else i + 2)) target

/-- Every finger idle, the medial joint of finger 0 (joint 2) at 0.5. -/
def idleAtHalf : HandSimDevice :=
  { restDevice with joint_position := fun j => if j = 2 then 0.5 else 0 }

/-- Collaborators whose clock reads 9. -/
def clockAt9 : Collaborators where
  rtt_now := fun _ => 9
  Pos := fun g _ => g.startpos
  Vel := fun _ _ => 0
  body2TorqueZ := fun _ => 0

/-- Only the unified port delivers: Trapezoidal mode with target 1 for every finger. -/
def unifiedTrap1 : Ports where
  joint_torque_in := FlowStatus.NoData
  joint_position_in := FlowStatus.NoData
  joint_velocity_in := FlowStatus.NoData
  joint_trapezoidal_in := FlowStatus.NoData
  joint_cmd_in := some { mode := fun _ => Mode.MODE_TRAPEZOIDAL, cmd := fun _ => 1 }

/-! ## Frame and localisation lemmas -/

theorem sameReadOnly_refl (d : HandSimDevice) : sameReadOnly d d := by
  simp [sameReadOnly]

theorem sameReadOnly_trans {d e f : HandSimDevice} (h1 : sameReadOnly d e)
    (h2 : sameReadOnly e f) : sameReadOnly d f := by
  unfold sameReadOnly at h1 h2 ⊢
  refine ⟨h2.1.trans h1.1, h2.2.1.trans h1.2.1, h2.2.2.1.trans h1.2.2.1, ?_⟩
  have r1 := h1.2.2.2
  have r2 := h2.2.2.2
  refine ⟨r2.1.trans r1.1, r2.2.1.trans r1.2.1, r2.2.2.1.trans r1.2.2.1, ?_⟩
  exact ⟨r2.2.2.2.1.trans r1.2.2.2.1, r2.2.2.2.2.1.trans r1.2.2.2.2.1,
    r2.2.2.2.2.2.trans r1.2.2.2.2.2⟩

theorem fingerTorque_congr (c : Collaborators) {d e : HandSimDevice} (h : sameReadOnly d e)
    (i : Nat) : fingerTorque c e i = fingerTorque c d i := by
  obtain ⟨a1, a2, a3, a4, a5, a6, a7, a8, a9⟩ := h
  simp only [fingerTorque, a1, a2, a3, a5, a6, a7, a8, a9]

theorem fingerTorque_isSome_iff (c : Collaborators) (d : HandSimDevice) (i : Nat) :
    (∃ tau, fingerTorque c d i = some tau) ↔ simRecognised (d.joint_cmd.mode i) := by
  unfold fingerTorque simRecognised
  cases d.joint_cmd.mode i <;> simp

theorem torqueSwitchUpdate_sameReadOnly (c : Collaborators) (d : HandSimDevice) (i : Nat)
    (t : ℚ) : sameReadOnly d (torqueSwitchUpdate c d i t) := by
  unfold torqueSwitchUpdate sameReadOnly
  dsimp only
  split_ifs <;> simp

theorem torqueSwitchOutput_sameReadOnly (s : SimState) (i : Nat) (t : ℚ) :
    sameReadOnly s.dev (torqueSwitchOutput s i t).dev := by
  unfold torqueSwitchOutput sameReadOnly SimState.SetForce
  dsimp only
  split_ifs <;> simp

theorem writeSimFinger_sameReadOnly (c : Collaborators) (i : Nat) (s s1 : SimState)
    (h : writeSimFinger c i s = some s1) : sameReadOnly s.dev s1.dev := by
  unfold writeSimFinger at h
  split at h
  · simp at h
  · split_ifs at h
    · simp only [Option.some.injEq] at h
      subst h
      simp [writeSimSpread, SimState.SetForce, sameReadOnly]
    · simp only [Option.some.injEq] at h
      subst h
      exact sameReadOnly_trans (torqueSwitchUpdate_sameReadOnly c s.dev i _)
        (torqueSwitchOutput_sameReadOnly _ i _)

theorem sameFinger_refl (i : Nat) (s : SimState) : sameFinger i s s := by
  simp [sameFinger]

theorem sameFinger_symm {i : Nat} {s t : SimState} (h : sameFinger i s t) :
    sameFinger i t s := by
  unfold sameFinger at h ⊢
  exact ⟨h.1.symm, h.2.1.symm, h.2.2.1.symm, h.2.2.2.1.symm, h.2.2.2.2.1.symm,
    h.2.2.2.2.2.symm⟩

theorem sameFinger_trans {i : Nat} {s t u : SimState} (h1 : sameFinger i s t)
    (h2 : sameFinger i t u) : sameFinger i s u := by
  unfold sameFinger at h1 h2 ⊢
  refine ⟨h2.1.trans h1.1, h2.2.1.trans h1.2.1, h2.2.2.1.trans h1.2.2.1, ?_⟩
  have r1 := h1.2.2.2
  have r2 := h2.2.2.2
  exact ⟨r2.1.trans r1.1, r2.2.1.trans r1.2.1, r2.2.2.trans r1.2.2⟩

theorem medialOf_finger {i : Nat} (hi : i < 3) : medialOf i = i + 2 := by
  simp [medialOf, fingerToJointIDs, hi]

theorem distalOf_finger {i : Nat} (hi : i < 3) : distalOf i = i + 5 := by
  simp [distalOf, fingerToJointIDs, hi]

theorem medialOf_spread : medialOf 3 = 0 := by
  simp [medialOf, fingerToJointIDs]

theorem distalOf_spread : distalOf 3 = 1 := by
  simp [distalOf, fingerToJointIDs]

/-- The loop body for finger `j` leaves what belongs to another finger `i` alone. -/
theorem writeSimFinger_other (c : Collaborators) {i j : Nat} (hi : i < 4) (hj : j < 4)
    (hij : j ≠ i) (s s1 : SimState) (h : writeSimFinger c j s = some s1) :
    sameFinger i s s1 := by
  unfold writeSimFinger at h
  split at h
  · simp at h
  · split_ifs at h with h3
    · simp only [Option.some.injEq] at h
      subst h
      subst h3
      have hi3 : i < 3 := by omega
      simp [sameFinger, writeSimSpread, SimState.SetForce, medialOf_finger hi3,
        distalOf_finger hi3, Function.update]
    · simp only [Option.some.injEq] at h
      subst h
      have hj3 : j < 3 := by omega
      have hne : i ≠ j := fun e => hij e.symm
      have hm : medialOf i ≠ j + 2 ∧ medialOf i ≠ j + 5 ∧ distalOf i ≠ j + 2 ∧
          distalOf i ≠ j + 5 := by
        interval_cases i <;> simp [medialOf, distalOf, fingerToJointIDs] <;> omega
      obtain ⟨m1, m2, m3, m4⟩ := hm
      unfold torqueSwitchOutput torqueSwitchUpdate sameFinger SimState.SetForce
      simp only [medialOf_finger hj3, distalOf_finger hj3]
      split_ifs <;> simp [Function.update, hne, m1, m2, m3, m4]

/-- What the loop body for finger `i` writes is determined by the read-only
members and by what belongs to finger `i`. -/
theorem writeSimFinger_congr (c : Collaborators) (i : Nat) {s t s1 : SimState}
    (hro : sameReadOnly s.dev t.dev) (hf : sameFinger i s t)
    (h : writeSimFinger c i s = some s1) :
    ∃ t1, writeSimFinger c i t = some t1 ∧ sameFinger i s1 t1 := by
  have hτ := fingerTorque_congr c hro i
  obtain ⟨a1, a2, a3, a4, a5, a6, a7, a8, a9⟩ := hro
  obtain ⟨b1, b2, b3, b4, b5, b6⟩ := hf
  unfold writeSimFinger at h ⊢
  rw [hτ]
  split at h
  · simp at h
  · rename_i tau htau
    split_ifs at h with h3
    · simp only [Option.some.injEq] at h
      subst h
      subst h3
      refine ⟨_, if_pos rfl, ?_⟩
      simp [sameFinger, writeSimSpread, SimState.SetForce, medialOf_spread, distalOf_spread,
        Function.update, a2, b1, b2, b3, b4]
    · simp only [Option.some.injEq] at h
      subst h
      refine ⟨_, if_neg h3, ?_⟩
      unfold torqueSwitchOutput torqueSwitchUpdate sameFinger SimState.SetForce
      simp only [Function.update_same, a2, a4, b1, b2]
      split_ifs <;> simp_all [Function.update]

/-- The loop over fingers other than `i` leaves what belongs to finger `i` alone. -/
theorem writeSimLoop_other (c : Collaborators) {i : Nat} (hi : i < 4) :
    ∀ (l : List Nat) (s : SimState), (∀ j ∈ l, j < 4 ∧ j ≠ i) →
      sameFinger i s (writeSimLoop c l s) := by
  intro l
  induction l with
  | nil => intro s _; exact sameFinger_refl i s
  | cons j rest ih =>
    intro s hl
    have hj := hl j (List.mem_cons_self j rest)
    simp only [writeSimLoop]
    cases hstep : writeSimFinger c j s with
    | none => exact sameFinger_refl i s
    | some s1 =>
      exact sameFinger_trans (writeSimFinger_other c hi hj.1 hj.2 s s1 hstep)
        (ih s1 (fun k hk => hl k (List.mem_cons_of_mem j hk)))

/-- Localisation: when the fingers processed before `i` have a recognised mode,
what the loop leaves for finger `i` is what the loop body for finger `i` computes. -/
theorem writeSimLoop_local (c : Collaborators) {i : Nat} (hi : i < 4) (l2 : List Nat)
    (hl2 : ∀ j ∈ l2, j < 4 ∧ j ≠ i) :
    ∀ (l1 : List Nat) (s t s1 : SimState),
      (∀ j ∈ l1, (j < 4 ∧ j ≠ i) ∧ simRecognised (s.dev.joint_cmd.mode j)) →
      sameReadOnly t.dev s.dev → sameFinger i t s → writeSimFinger c i t = some s1 →
      sameFinger i s1 (writeSimLoop c (l1 ++ i :: l2) s) := by
  intro l1
  induction l1 with
  | nil =>
    intro s t s1 _ hro hf hstep
    obtain ⟨s2, hs2, hf2⟩ := writeSimFinger_congr c i hro hf hstep
    simp only [List.nil_append, writeSimLoop, hs2]
    exact sameFinger_trans hf2 (writeSimLoop_other c hi l2 s2 hl2)
  | cons j rest ih =>
    intro s t s1 hl1 hro hf hstep
    have hj := hl1 j (List.mem_cons_self j rest)
    obtain ⟨tau, htau⟩ := (fingerTorque_isSome_iff c s.dev j).2 hj.2
    have hsome : ∃ s2, writeSimFinger c j s = some s2 := by
      unfold writeSimFinger
      rw [htau]
      split_ifs <;> exact ⟨_, rfl⟩
    obtain ⟨s2, hs2⟩ := hsome
    have hro2 := writeSimFinger_sameReadOnly c j s s2 hs2
    simp only [List.cons_append, writeSimLoop, hs2]
    refine ih s2 t s1 ?_ (sameReadOnly_trans hro hro2)
      (sameFinger_trans hf (writeSimFinger_other c hi hj.1.1 hj.1.2 s s2 hs2)) hstep
    intro k hk
    have := hl1 k (List.mem_cons_of_mem j hk)
    refine ⟨this.1, ?_⟩
    rw [hro2.1]
    exact this.2

/-- Localisation for a whole `writeSim` cycle. -/
theorem writeSim_local (c : Collaborators) (d : HandSimDevice) {i : Nat} (hi : i < 4)
    (hrec : ∀ j, j < i → simRecognised (d.joint_cmd.mode j)) (s1 : SimState)
    (h : writeSimFinger c i { dev := d, force := fun _ => none } = some s1) :
    sameFinger i s1 (writeSim c d) := by
  unfold writeSim
  interval_cases i
  · exact writeSimLoop_local c (by decide) [1, 2, 3] (by decide) [] _ _ s1 (by simp)
      (sameReadOnly_refl d) (sameFinger_refl 0 _) h
  · refine writeSimLoop_local c (by decide) [2, 3] (by decide) [0] _ _ s1 ?_
      (sameReadOnly_refl d) (sameFinger_refl 1 _) h
    simpa using hrec 0 (by decide)
  · refine writeSimLoop_local c (by decide) [3] (by decide) [0, 1] _ _ s1 ?_
      (sameReadOnly_refl d) (sameFinger_refl 2 _) h
    simpa using ⟨hrec 0 (by decide), hrec 1 (by decide)⟩
  · refine writeSimLoop_local c (by decide) [] (by simp) [0, 1, 2] _ _ s1 ?_
      (sameReadOnly_refl d) (sameFinger_refl 3 _) h
    simpa using ⟨hrec 0 (by decide), hrec 1 (by decide), hrec 2 (by decide)⟩

/-- For a finger `i < 3` whose torque is `tau`, a `writeSim` cycle leaves for
finger `i` what the TorqueSwitch branch computes from the state at the start. -/
theorem writeSim_finger (c : Collaborators) (d : HandSimDevice) {i : Nat} (hi : i < 3)
    (hrec : ∀ j, j < i → simRecognised (d.joint_cmd.mode j)) {tau : ℚ}
    (htau : fingerTorque c d i = some tau) :
    sameFinger i
      (torqueSwitchOutput
        { dev := torqueSwitchUpdate c d i tau, force := fun _ => none } i tau)
      (writeSim c d) := by
  apply writeSim_local c d (by omega) hrec
  unfold writeSimFinger
  simp only [htau]
  exact if_neg (by omega)

/-- For the spread finger with torque `tau`, a `writeSim` cycle leaves on joints
0 and 1 what the spread branch computes from the state at the start. -/
theorem writeSim_spread (c : Collaborators) (d : HandSimDevice)
    (hrec : ∀ j, j < 3 → simRecognised (d.joint_cmd.mode j)) {tau : ℚ}
    (htau : fingerTorque c d 3 = some tau) :
    sameFinger 3 (writeSimSpread { dev := d, force := fun _ => none } tau) (writeSim c d) := by
  apply writeSim_local c d (by decide) hrec
  unfold writeSimFinger
  simp only [htau]
  exact if_pos trivial

theorem sameSlot_refl (i : Nat) (d : HandSimDevice) : sameSlot i d d := by
  simp [sameSlot]

theorem sameSlot_trans {i : Nat} {d e f : HandSimDevice} (h1 : sameSlot i d e)
    (h2 : sameSlot i e f) : sameSlot i d f := by
  unfold sameSlot at h1 h2 ⊢
  refine ⟨h2.1.trans h1.1, h2.2.1.trans h1.2.1, h2.2.2.1.trans h1.2.2.1, ?_⟩
  have r1 := h1.2.2.2
  have r2 := h2.2.2.2
  refine ⟨r2.1.trans r1.1, r2.2.1.trans r1.2.1, r2.2.2.1.trans r1.2.2.1, ?_⟩
  exact ⟨r2.2.2.2.1.trans r1.2.2.2.1, r2.2.2.2.2.trans r1.2.2.2.2⟩

theorem sameSlot_symm {i : Nat} {d e : HandSimDevice} (h : sameSlot i d e) :
    sameSlot i e d := by
  unfold sameSlot at h ⊢
  have r := h.2.2.2
  exact ⟨h.1.symm, h.2.1.symm, h.2.2.1.symm, r.1.symm, r.2.1.symm, r.2.2.1.symm,
    r.2.2.2.1.symm, r.2.2.2.2.symm⟩

theorem sameShape_refl (d : HandSimDevice) : sameShape d d := by
  simp [sameShape]

theorem sameShape_trans {d e f : HandSimDevice} (h1 : sameShape d e)
    (h2 : sameShape e f) : sameShape d f := by
  unfold sameShape at h1 h2 ⊢
  exact ⟨h2.1.trans h1.1, h2.2.1.trans h1.2.1, h2.2.2.1.trans h1.2.2.1,
    h2.2.2.2.1.trans h1.2.2.2.1, h2.2.2.2.2.trans h1.2.2.2.2⟩

theorem updateCommand_other (c : Collaborators) {i j : Nat} (hij : j ≠ i) (st : MuxState) :
    sameSlot i st.dev (updateCommand c j st).dev := by
  have hne : i ≠ j := fun e => hij e.symm
  unfold updateCommand sameSlot HandSimDevice.setCmd
  dsimp only
  split_ifs <;> simp [Function.update, hne]

theorem updateCommand_sameShape (c : Collaborators) (j : Nat) (st : MuxState) :
    sameShape st.dev (updateCommand c j st).dev := by
  unfold updateCommand sameShape HandSimDevice.setCmd
  dsimp only
  split_ifs <;> simp

theorem writeDeviceFinger_other (c : Collaborators) (u : Option BHandCmd) {i j : Nat}
    (hij : j ≠ i) (st st1 : MuxState) (h : writeDeviceFinger c u j st = some st1) :
    sameSlot i st.dev st1.dev := by
  have hne : i ≠ j := fun e => hij e.symm
  unfold writeDeviceFinger at h
  split at h
  · simp only [Option.some.injEq] at h
    subst h
    exact updateCommand_other c hij st
  · split at h <;> simp only [Option.some.injEq, reduceCtorEq] at h <;> subst h
    · exact sameSlot_refl i _
    all_goals
      refine sameSlot_trans ?_ (updateCommand_other c hij _)
      simp [sameSlot, HandSimDevice.setMode, Function.update, hne, List.getElem?_set_ne hij]

theorem writeDeviceFinger_sameShape (c : Collaborators) (u : Option BHandCmd) (j : Nat)
    (st st1 : MuxState) (h : writeDeviceFinger c u j st = some st1) :
    sameShape st.dev st1.dev := by
  unfold writeDeviceFinger at h
  split at h
  · simp only [Option.some.injEq] at h
    subst h
    exact updateCommand_sameShape c j st
  · split at h <;> simp only [Option.some.injEq, reduceCtorEq] at h <;> subst h
    · exact sameShape_refl _
    all_goals
      refine sameShape_trans ?_ (updateCommand_sameShape c j _)
      simp [sameShape, HandSimDevice.setMode]

theorem writeDeviceFinger_eq_none (c : Collaborators) (u : Option BHandCmd) (i : Nat)
    (st : MuxState) :
    writeDeviceFinger c u i st = none ↔ ∃ tmp, u = some tmp ∧ ¬ muxRecognised (tmp.mode i) := by
  unfold writeDeviceFinger muxRecognised
  cases u with
  | none => simp
  | some tmp =>
    simp only [Option.some.injEq, exists_eq_left']
    cases tmp.mode i <;> simp

theorem writeDeviceLoop_other (c : Collaborators) (u : Option BHandCmd) (i : Nat) :
    ∀ (l : List Nat) (st : MuxState), i ∉ l →
      sameSlot i st.dev (writeDeviceLoop c u l st).dev := by
  intro l
  induction l with
  | nil => intro st _; exact sameSlot_refl i _
  | cons j rest ih =>
    intro st hl
    simp only [List.mem_cons, not_or] at hl
    simp only [writeDeviceLoop]
    cases hstep : writeDeviceFinger c u j st with
    | none => exact sameSlot_refl i _
    | some st1 =>
      exact sameSlot_trans (writeDeviceFinger_other c u (fun e => hl.1 e.symm) st st1 hstep)
        (ih st1 hl.2)

theorem writeDeviceLoop_sameShape (c : Collaborators) (u : Option BHandCmd) :
    ∀ (l : List Nat) (st : MuxState), sameShape st.dev (writeDeviceLoop c u l st).dev := by
  intro l
  induction l with
  | nil => intro st; exact sameShape_refl _
  | cons j rest ih =>
    intro st
    simp only [writeDeviceLoop]
    cases hstep : writeDeviceFinger c u j st with
    | none => exact sameShape_refl _
    | some st1 =>
      exact sameShape_trans (writeDeviceFinger_sameShape c u j st st1 hstep) (ih st1)

/-- Fingers processed after the list `l1` do not change what `l1` left for a
finger outside the rest of the loop. -/
theorem writeDeviceLoop_front (c : Collaborators) (u : Option BHandCmd) (i : Nat)
    (l2 : List Nat) (hl2 : i ∉ l2) :
    ∀ (l1 : List Nat) (st : MuxState),
      sameSlot i (writeDeviceLoop c u l1 st).dev (writeDeviceLoop c u (l1 ++ l2) st).dev := by
  intro l1
  induction l1 with
  | nil => intro st; exact writeDeviceLoop_other c u i l2 st hl2
  | cons j rest ih =>
    intro st
    simp only [List.cons_append, writeDeviceLoop]
    cases hstep : writeDeviceFinger c u j st with
    | none => exact sameSlot_refl i _
    | some st1 => exact ih st1

/-- Without a `return` in `l1` the loop over `l1 ++ l2` is the loop over `l2`
started where the loop over `l1` ends. -/
theorem writeDeviceLoop_append (c : Collaborators) (u : Option BHandCmd) (l2 : List Nat) :
    ∀ (l1 : List Nat) (st : MuxState),
      (∀ tmp, u = some tmp → ∀ j ∈ l1, muxRecognised (tmp.mode j)) →
      writeDeviceLoop c u (l1 ++ l2) st = writeDeviceLoop c u l2 (writeDeviceLoop c u l1 st) := by
  intro l1
  induction l1 with
  | nil => intro st _; rfl
  | cons j rest ih =>
    intro st hl
    simp only [List.cons_append, writeDeviceLoop]
    cases hstep : writeDeviceFinger c u j st with
    | none =>
      obtain ⟨tmp, htmp, hbad⟩ := (writeDeviceFinger_eq_none c u j st).1 hstep
      exact absurd (hl tmp htmp j (List.mem_cons_self j rest)) hbad
    | some st1 =>
      exact ih st1 (fun tmp htmp k hk => hl tmp htmp k (List.mem_cons_of_mem j hk))

/-- The loop body reads only entry `i` of the unified command. -/
theorem writeDeviceFinger_entry (c : Collaborators) (u v : BHandCmd) (i : Nat) (st : MuxState)
    (hm : v.mode i = u.mode i) (hc : v.cmd i = u.cmd i) :
    writeDeviceFinger c (some v) i st = writeDeviceFinger c (some u) i st := by
  unfold writeDeviceFinger
  simp only [hm, hc]

theorem writeDeviceLoop_entries (c : Collaborators) (u v : BHandCmd) :
    ∀ (l : List Nat) (st : MuxState),
      (∀ j ∈ l, v.mode j = u.mode j ∧ v.cmd j = u.cmd j) →
      writeDeviceLoop c (some v) l st = writeDeviceLoop c (some u) l st := by
  intro l
  induction l with
  | nil => intro st _; rfl
  | cons j rest ih =>
    intro st hl
    have hj := hl j (List.mem_cons_self j rest)
    simp only [writeDeviceLoop, writeDeviceFinger_entry c u v j st hj.1 hj.2]
    cases writeDeviceFinger c (some u) j st with
    | none => rfl
    | some st1 => exact ih st1 (fun k hk => hl k (List.mem_cons_of_mem j hk))

/-- A `return` at finger `k` ends the loop where the fingers before `k` left it. -/
theorem writeDeviceLoop_return (c : Collaborators) (u : BHandCmd) (k : Nat) (l1 l2 : List Nat)
    (st : MuxState) (hl1 : ∀ j ∈ l1, muxRecognised (u.mode j))
    (hk : ¬ muxRecognised (u.mode k)) :
    writeDeviceLoop c (some u) (l1 ++ k :: l2) st = writeDeviceLoop c (some u) l1 st := by
  rw [writeDeviceLoop_append c (some u) (k :: l2) l1 st
    (fun tmp htmp j hj => by cases htmp; exact hl1 j hj)]
  simp only [writeDeviceLoop]
  rw [(writeDeviceFinger_eq_none c (some u) k _).2 ⟨u, rfl, hk⟩]

/-- In Run mode with well-sized vectors `writeDevice` is the finger loop run
from the polled state. -/
theorem writeDevice_run (c : Collaborators) (p : Ports) (d : HandSimDevice)
    (hrun : d.run_mode = RunMode.RUN) (hsize : wellSized p d) :
    writeDevice c p d = (writeDeviceLoop c p.joint_cmd_in [0, 1, 2, 3] (polled p d)).dev := by
  obtain ⟨h1, h2, h3, h4⟩ := hsize
  have hno : ¬ ((readNewest p.joint_torque_in d.joint_torque_cmd).1.length ≠ N_PUCKS ∨
      (readNewest p.joint_position_in d.joint_position_cmd).1.length ≠ N_PUCKS ∨
      (readNewest p.joint_velocity_in d.joint_velocity_cmd).1.length ≠ N_PUCKS ∨
      (readNewest p.joint_trapezoidal_in d.joint_trapezoidal_cmd).1.length ≠ N_PUCKS) := by
    simp [h1, h2, h3, h4]
  unfold writeDevice
  rw [hrun]
  exact if_neg hno

theorem reached_sameSlot (c : Collaborators) (p : Ports) (d : HandSimDevice) (i : Nat) :
    sameSlot i (polled p d).dev (reached c p d i).dev :=
  writeDeviceLoop_other c p.joint_cmd_in i (List.range i) (polled p d)
    (by simp)

theorem reached_length (c : Collaborators) (p : Ports) (d : HandSimDevice) (i : Nat)
    (hsize : wellSized p d) :
    (reached c p d i).dev.joint_torque_cmd.length = 4 ∧
    (reached c p d i).dev.joint_position_cmd.length = 4 ∧
    (reached c p d i).dev.joint_velocity_cmd.length = 4 ∧
    (reached c p d i).dev.joint_trapezoidal_cmd.length = 4 := by
  obtain ⟨a1, a2, a3, a4, -⟩ :=
    writeDeviceLoop_sameShape c p.joint_cmd_in (List.range i) (polled p d)
  obtain ⟨h1, h2, h3, h4⟩ := hsize
  exact ⟨a1.trans h1, a2.trans h2, a3.trans h3, a4.trans h4⟩

/-- In Run mode with well-sized vectors, when the unified command has no
unrecognised mode before finger `i`, what `writeDevice` leaves for finger `i` is
what the loop body for finger `i` leaves, run from the state reached. -/
theorem writeDevice_at (c : Collaborators) (p : Ports) (d : HandSimDevice) {i : Nat}
    (hrun : d.run_mode = RunMode.RUN) (hsize : wellSized p d) (hi : i < 4)
    (hrec : ∀ tmp, p.joint_cmd_in = some tmp → ∀ j, j < i → muxRecognised (tmp.mode j))
    (st1 : MuxState) (hstep : writeDeviceFinger c p.joint_cmd_in i (reached c p d i) = some st1) :
    sameSlot i st1.dev (writeDevice c p d) := by
  have hsplit : ∃ l2, [0, 1, 2, 3] = List.range i ++ i :: l2 ∧ i ∉ l2 := by
    interval_cases i
    · exact ⟨[1, 2, 3], rfl, by decide⟩
    · exact ⟨[2, 3], rfl, by decide⟩
    · exact ⟨[3], rfl, by decide⟩
    · exact ⟨[], rfl, by decide⟩
  obtain ⟨l2, hl, hnot⟩ := hsplit
  rw [writeDevice_run c p d hrun hsize, hl,
    writeDeviceLoop_append c p.joint_cmd_in (i :: l2) (List.range i) (polled p d)
      (fun tmp htmp j hj => hrec tmp htmp j (List.mem_range.1 hj))]
  simp only [writeDeviceLoop]
  unfold reached at hstep
  rw [hstep]
  exact writeDeviceLoop_other c p.joint_cmd_in i l2 st1 hnot

/-- What the loop body of `writeDevice` leaves for finger `i` under each mode of
the unified command. -/
theorem writeDeviceFinger_unified (c : Collaborators) (u : BHandCmd) (i : Nat) (st : MuxState)
    (h1 : i < st.dev.joint_torque_cmd.length) (h2 : i < st.dev.joint_position_cmd.length)
    (h3 : i < st.dev.joint_velocity_cmd.length)
    (h4 : i < st.dev.joint_trapezoidal_cmd.length) (hrec : muxRecognised (u.mode i)) :
    ∃ st1, writeDeviceFinger c (some u) i st = some st1 ∧
      (u.mode i = Mode.MODE_TORQUE →
        st1.dev.joint_cmd.mode i = Mode.MODE_TORQUE ∧ st1.dev.joint_cmd.cmd i = u.cmd i ∧
        st1.dev.joint_torque_cmd[i]? = some (u.cmd i)) ∧
      (u.mode i = Mode.MODE_PID →
        st1.dev.joint_cmd.mode i = Mode.MODE_PID ∧ st1.dev.joint_cmd.cmd i = u.cmd i ∧
        st1.dev.joint_position_cmd[i]? = some (u.cmd i)) ∧
      (u.mode i = Mode.MODE_VELOCITY →
        st1.dev.joint_cmd.mode i = Mode.MODE_VELOCITY ∧ st1.dev.joint_cmd.cmd i = u.cmd i ∧
        st1.dev.joint_velocity_cmd[i]? = some (u.cmd i)) ∧
      (u.mode i = Mode.MODE_TRAPEZOIDAL →
        st1.dev.joint_cmd.mode i = Mode.MODE_TRAPEZOIDAL ∧ st1.dev.joint_cmd.cmd i = u.cmd i ∧
        st1.dev.joint_trapezoidal_cmd[i]? = some (u.cmd i)) ∧
      (u.mode i = Mode.MODE_IDLE →
        st1.dev.joint_cmd.mode i = Mode.MODE_IDLE ∧
        st1.dev.joint_cmd.cmd i = st.dev.joint_cmd.cmd i ∧
        st1.dev.joint_torque_cmd[i]? = some 0) ∧
      (u.mode i = Mode.MODE_SAME → st1 = st) := by
  unfold muxRecognised at hrec
  rcases hrec with h | h | h | h | h | h
  all_goals
    refine ⟨_, by simp only [writeDeviceFinger, h]; rfl, ?_⟩
    simp [h, updateCommand, HandSimDevice.setMode, HandSimDevice.setCmd, Function.update,
      List.getD, List.getElem?_set, h1, h2, h3, h4]

theorem updateCommand_keeps (c : Collaborators) (i : Nat) (st : MuxState) :
    (updateCommand c i st).new_torque_cmd = st.new_torque_cmd ∧
    (updateCommand c i st).new_position_cmd = st.new_position_cmd ∧
    (updateCommand c i st).new_velocity_cmd = st.new_velocity_cmd ∧
    (updateCommand c i st).new_trapezoidal_cmd = st.new_trapezoidal_cmd ∧
    (updateCommand c i st).dev.joint_torque_cmd = st.dev.joint_torque_cmd ∧
    (updateCommand c i st).dev.joint_position_cmd = st.dev.joint_position_cmd ∧
    (updateCommand c i st).dev.joint_velocity_cmd = st.dev.joint_velocity_cmd ∧
    (updateCommand c i st).dev.joint_trapezoidal_cmd = st.dev.joint_trapezoidal_cmd ∧
    (updateCommand c i st).dev.joint_cmd.mode = st.dev.joint_cmd.mode := by
  unfold updateCommand HandSimDevice.setCmd
  dsimp only
  split_ifs <;> simp

/-- Without a unified command the loop changes neither the flags nor the vectors. -/
theorem writeDeviceLoop_none_keeps (c : Collaborators) :
    ∀ (l : List Nat) (st : MuxState),
      (writeDeviceLoop c none l st).new_torque_cmd = st.new_torque_cmd ∧
      (writeDeviceLoop c none l st).new_position_cmd = st.new_position_cmd ∧
      (writeDeviceLoop c none l st).new_velocity_cmd = st.new_velocity_cmd ∧
      (writeDeviceLoop c none l st).new_trapezoidal_cmd = st.new_trapezoidal_cmd ∧
      (writeDeviceLoop c none l st).dev.joint_torque_cmd = st.dev.joint_torque_cmd ∧
      (writeDeviceLoop c none l st).dev.joint_position_cmd = st.dev.joint_position_cmd ∧
      (writeDeviceLoop c none l st).dev.joint_velocity_cmd = st.dev.joint_velocity_cmd ∧
      (writeDeviceLoop c none l st).dev.joint_trapezoidal_cmd = st.dev.joint_trapezoidal_cmd := by
  intro l
  induction l with
  | nil => intro st; simp [writeDeviceLoop]
  | cons j rest ih =>
    intro st
    obtain ⟨nt, np, nv, nz, vt, vp, vv, vz, -⟩ := updateCommand_keeps c j st
    obtain ⟨mt, mp, mv, mz, wt, wp, wv, wz⟩ := ih (updateCommand c j st)
    simp only [writeDeviceLoop, writeDeviceFinger]
    exact ⟨mt.trans nt, mp.trans np, mv.trans nv, mz.trans nz, wt.trans vt, wp.trans vp,
      wv.trans vv, wz.trans vz⟩

/-- The "Update the command" chain copies the entry of the stream that matches
the mode of the finger when the flag of that stream is raised. -/
theorem updateCommand_copies (c : Collaborators) (i : Nat) (st : MuxState)
    (h1 : i < st.dev.joint_torque_cmd.length) (h2 : i < st.dev.joint_position_cmd.length)
    (h3 : i < st.dev.joint_velocity_cmd.length)
    (h4 : i < st.dev.joint_trapezoidal_cmd.length) :
    (st.dev.joint_cmd.mode i = Mode.MODE_TORQUE → st.new_torque_cmd = true →
      st.dev.joint_torque_cmd[i]? = some ((updateCommand c i st).dev.joint_cmd.cmd i)) ∧
    (st.dev.joint_cmd.mode i = Mode.MODE_PID → st.new_position_cmd = true →
      st.dev.joint_position_cmd[i]? = some ((updateCommand c i st).dev.joint_cmd.cmd i)) ∧
    (st.dev.joint_cmd.mode i = Mode.MODE_VELOCITY → st.new_velocity_cmd = true →
      st.dev.joint_velocity_cmd[i]? = some ((updateCommand c i st).dev.joint_cmd.cmd i)) ∧
    (st.dev.joint_cmd.mode i = Mode.MODE_TRAPEZOIDAL → st.new_trapezoidal_cmd = true →
      st.dev.joint_trapezoidal_cmd[i]? =
        some ((updateCommand c i st).dev.joint_cmd.cmd i)) := by
  refine ⟨?_, ?_, ?_, ?_⟩ <;> intro hm hf <;>
    simp [updateCommand, HandSimDevice.setCmd, hm, hf, Function.update, List.getD,
      List.getElem?_eq_getElem, h1, h2, h3, h4]

theorem readNewest_snd {α : Type} (port : FlowStatus α) (sample : α) :
    (readNewest port sample).2 = port.isNew := by
  cases port <;> rfl

theorem doneMoving_of_slow (d : HandSimDevice) (hv : ∀ j, j < 8 → d.joint_velocity j < 0.01)
    (i : Nat) (hi : i < 4) : d.doneMoving i = true := by
  interval_cases i <;>
    simp [HandSimDevice.doneMoving, fingerToJointIDs, hv]

/-- One cycle in the run mode Initialize with all joints slow: the joint
velocities are kept and the sub-state advances by one. -/
theorem writeDevice_init_slow (c : Collaborators) (p : Ports) (d : HandSimDevice)
    (h : d.run_mode = RunMode.INITIALIZE) (hv : ∀ j, j < 8 → d.joint_velocity j < 0.01) :
    (writeDevice c p d).joint_velocity = d.joint_velocity ∧
    (d.init_state = InitState.INIT_FINGERS →
      (writeDevice c p d).run_mode = RunMode.INITIALIZE ∧
      (writeDevice c p d).init_state = InitState.SEEK_FINGERS) ∧
    (d.init_state = InitState.SEEK_FINGERS →
      (writeDevice c p d).run_mode = RunMode.INITIALIZE ∧
      (writeDevice c p d).init_state = InitState.SEEK_SPREAD) ∧
    (d.init_state = InitState.SEEK_SPREAD →
      (writeDevice c p d).run_mode = RunMode.INITIALIZE ∧
      (writeDevice c p d).init_state = InitState.INIT_CLOSE) ∧
    (d.init_state = InitState.INIT_CLOSE → (writeDevice c p d).run_mode = RunMode.RUN) := by
  have h0 := doneMoving_of_slow d hv 0 (by decide)
  have h1 := doneMoving_of_slow d hv 1 (by decide)
  have h2 := doneMoving_of_slow d hv 2 (by decide)
  have h3 := doneMoving_of_slow d hv 3 (by decide)
  unfold writeDevice
  rw [h]
  refine ⟨?_, ?_, ?_, ?_, ?_⟩
  · cases d.init_state <;> simp [h0, h1, h2, h3]
    rfl
  all_goals
    intro hs
    simp [hs, h, h0, h1, h2, h3]

/-- In the run mode Initialize the sequence cannot reach Run in fewer cycles
than `stepsToClose` plus one. -/
theorem writeDeviceCycles_still_init :
    ∀ (xs : List (Collaborators × Ports)) (d : HandSimDevice),
      d.run_mode = RunMode.INITIALIZE → xs.length ≤ stepsToClose d.init_state →
      (writeDeviceCycles xs d).run_mode = RunMode.INITIALIZE := by
  intro xs
  induction xs with
  | nil => intro d h _; exact h
  | cons x rest ih =>
    intro d h hlen
    simp only [writeDeviceCycles]
    have hstep : (writeDevice x.1 x.2 d).run_mode = RunMode.INITIALIZE ∧
        rest.length ≤ stepsToClose (writeDevice x.1 x.2 d).init_state := by
      simp only [List.length_cons] at hlen
      cases hs : d.init_state <;> rw [hs] at hlen <;> simp only [stepsToClose] at hlen
      · simp only [writeDevice, h, hs, stepsToClose]
        exact ⟨trivial, by omega⟩
      · simp only [writeDevice, h, hs]
        split_ifs
        · simp only [stepsToClose]
          exact ⟨trivial, by omega⟩
        · simp only [h, hs, stepsToClose]
          exact ⟨trivial, by omega⟩
      · simp only [writeDevice, h, hs]
        split_ifs
        · simp only [stepsToClose]
          exact ⟨trivial, by omega⟩
        · simp only [h, hs, stepsToClose]
          exact ⟨trivial, by omega⟩
      · omega
    exact ih _ hstep.1 hstep.2

/-- In the run mode Idle `writeDevice` cycles change nothing. -/
theorem writeDeviceCycles_idle :
    ∀ (xs : List (Collaborators × Ports)) (d : HandSimDevice),
      d.run_mode = RunMode.IDLE → writeDeviceCycles xs d = d := by
  intro xs
  induction xs with
  | nil => intro d _; rfl
  | cons x rest ih =>
    intro d h
    have hstep : writeDevice x.1 x.2 d = d := by
      unfold writeDevice
      rw [h]
    simp only [writeDeviceCycles, hstep]
    exact ih d h

theorem fingerTorque_idle (c : Collaborators) (d : HandSimDevice) (i : Nat)
    (h : d.joint_cmd.mode i = Mode.MODE_IDLE) : fingerTorque c d i = some 0 := by
  simp [fingerTorque, h]

theorem simRecognised_idle {m : Mode} (h : m = Mode.MODE_IDLE) : simRecognised m :=
  Or.inl h

/-- With finger torque 0 the TorqueSwitch branch writes 0 to the medial joint
and leaves the breakaway angle as it is. -/
theorem torqueSwitch_zero (c : Collaborators) (d : HandSimDevice) (i : Nat) (hi : i < 3) :
    (torqueSwitchOutput { dev := torqueSwitchUpdate c d i 0, force := fun _ => none } i
      0).force (i + 2) = some 0 ∧
    (torqueSwitchOutput { dev := torqueSwitchUpdate c d i 0, force := fun _ => none } i
      0).dev.breakaway_angle i = d.breakaway_angle i := by
  unfold torqueSwitchOutput torqueSwitchUpdate SimState.SetForce
  simp only [medialOf_finger hi, distalOf_finger hi]
  constructor <;> split_ifs <;> simp_all [Function.update]

/-- With finger torque 0 the distal joint receives the coupling force when the
switch is off after its update and the hold force when it is on. -/
theorem torqueSwitch_zero_distal (c : Collaborators) (d : HandSimDevice) (i : Nat)
    (hi : i < 3) :
    ((torqueSwitchOutput { dev := torqueSwitchUpdate c d i 0, force := fun _ => none } i
        0).dev.torque_switches i = false →
      (torqueSwitchOutput { dev := torqueSwitchUpdate c d i 0, force := fun _ => none } i
        0).force (i + 5) =
        some (10 * ((1 / 3) * d.joint_position (i + 2) - d.joint_position (i + 5)))) ∧
    ((torqueSwitchOutput { dev := torqueSwitchUpdate c d i 0, force := fun _ => none } i
        0).dev.torque_switches i = true →
      (torqueSwitchOutput { dev := torqueSwitchUpdate c d i 0, force := fun _ => none } i
        0).force (i + 5) =
        some (10 * (d.breakaway_angle i - d.joint_position (i + 5)))) := by
  unfold torqueSwitchOutput torqueSwitchUpdate SimState.SetForce
  simp only [medialOf_finger hi, distalOf_finger hi, FINGER_JOINT_RATIO, KNUCKLE_GAIN]
  constructor <;> intro h <;> split_ifs at h ⊢ <;> simp_all [Function.update]

theorem updateCommand_run_mode (c : Collaborators) (i : Nat) (st : MuxState) :
    (updateCommand c i st).dev.run_mode = st.dev.run_mode := by
  unfold updateCommand HandSimDevice.setCmd
  dsimp only
  split_ifs <;> rfl

theorem writeDeviceFinger_run_mode (c : Collaborators) (u : Option BHandCmd) (i : Nat)
    (st st1 : MuxState) (h : writeDeviceFinger c u i st = some st1) :
    st1.dev.run_mode = st.dev.run_mode := by
  unfold writeDeviceFinger at h
  split at h
  · simp only [Option.some.injEq] at h
    subst h
    exact updateCommand_run_mode c i st
  · split at h <;> simp only [Option.some.injEq, reduceCtorEq] at h <;> subst h
    · rfl
    all_goals exact updateCommand_run_mode c i _

theorem writeDeviceLoop_run_mode (c : Collaborators) (u : Option BHandCmd) :
    ∀ (l : List Nat) (st : MuxState),
      (writeDeviceLoop c u l st).dev.run_mode = st.dev.run_mode := by
  intro l
  induction l with
  | nil => intro st; rfl
  | cons j rest ih =>
    intro st
    simp only [writeDeviceLoop]
    cases hstep : writeDeviceFinger c u j st with
    | none => rfl
    | some st1 => exact (ih st1).trans (writeDeviceFinger_run_mode c u j st st1 hstep)

/-- A cycle in the run mode Run stays in the run mode Run. -/
theorem writeDevice_stays_run (c : Collaborators) (p : Ports) (d : HandSimDevice)
    (hrun : d.run_mode = RunMode.RUN) : (writeDevice c p d).run_mode = RunMode.RUN := by
  unfold writeDevice
  rw [hrun]
  unfold writeDeviceRun
  dsimp only
  split_ifs
  · exact hrun
  · rw [writeDeviceLoop_run_mode]
    exact hrun

/-- When the unified command has its first unrecognised mode at finger `k`, the
cycle ends where the fingers before `k` left it. -/
theorem writeDevice_return (c : Collaborators) (p : Ports) (d : HandSimDevice) (u : BHandCmd)
    (k : Nat) (hrun : d.run_mode = RunMode.RUN) (hsize : wellSized p d)
    (hu : p.joint_cmd_in = some u) (hk : k < 4) (hbad : ¬ muxRecognised (u.mode k))
    (hfirst : ∀ j, j < k → muxRecognised (u.mode j)) :
    writeDevice c p d = (writeDeviceLoop c (some u) (List.range k) (polled p d)).dev := by
  have hsplit : ∃ l2, [0, 1, 2, 3] = List.range k ++ k :: l2 := by
    interval_cases k
    · exact ⟨[1, 2, 3], rfl⟩
    · exact ⟨[2, 3], rfl⟩
    · exact ⟨[3], rfl⟩
    · exact ⟨[], rfl⟩
  obtain ⟨l2, hl⟩ := hsplit
  rw [writeDevice_run c p d hrun hsize, hu, hl]
  rw [writeDeviceLoop_return c u k (List.range k) l2 (polled p d)
    (fun j hj => hfirst j (List.mem_range.1 hj)) hbad]

/-- When the unified command has an unrecognised mode for a finger up to `i`,
the cycle leaves for finger `i` what the polling left. -/
theorem writeDevice_skipped (c : Collaborators) (p : Ports) (d : HandSimDevice) (u : BHandCmd)
    (i : Nat) (hrun : d.run_mode = RunMode.RUN) (hsize : wellSized p d)
    (hu : p.joint_cmd_in = some u) (hi : i < 4)
    (hbad : ¬ ∀ k, k ≤ i → muxRecognised (u.mode k)) :
    sameSlot i (polled p d).dev (writeDevice c p d) := by
  have hex : ∃ k, ¬ muxRecognised (u.mode k) := by
    by_contra hno
    exact hbad (fun k _ => by
      by_contra hk
      exact hno ⟨k, hk⟩)
  have hk0 := Nat.find_spec hex
  have hle : Nat.find hex ≤ i := by
    by_contra hgt
    exact hbad (fun k hk => by
      by_contra hbk
      exact absurd (Nat.find_min' hex hbk) (by omega))
  have hfirst : ∀ j, j < Nat.find hex → muxRecognised (u.mode j) := by
    intro j hj
    by_contra hbj
    exact absurd (Nat.find_min' hex hbj) (by omega)
  rw [writeDevice_return c p d u (Nat.find hex) hrun hsize hu (by omega) hk0 hfirst]
  exact writeDeviceLoop_other c (some u) i (List.range (Nat.find hex)) (polled p d)
    (by simp only [List.mem_range, not_lt]; exact hle)

/-- Mode and setpoint that a cycle with the unified command `u` leaves for
finger `i`: they do not depend on the four per-type ports. -/
theorem writeDevice_unified_slot (c : Collaborators) (p : Ports) (d : HandSimDevice)
    (u : BHandCmd) (i : Nat) (hrun : d.run_mode = RunMode.RUN) (hsize : wellSized p d)
    (hu : p.joint_cmd_in = some u) (hi : i < 4) :
    ((∀ k, k ≤ i → muxRecognised (u.mode k)) →
      (u.mode i = Mode.MODE_SAME →
        (writeDevice c p d).joint_cmd.mode i = d.joint_cmd.mode i ∧
        (writeDevice c p d).joint_cmd.cmd i = d.joint_cmd.cmd i) ∧
      (u.mode i = Mode.MODE_IDLE →
        (writeDevice c p d).joint_cmd.mode i = Mode.MODE_IDLE ∧
        (writeDevice c p d).joint_cmd.cmd i = d.joint_cmd.cmd i) ∧
      (u.mode i ≠ Mode.MODE_SAME → u.mode i ≠ Mode.MODE_IDLE →
        (writeDevice c p d).joint_cmd.mode i = u.mode i ∧
        (writeDevice c p d).joint_cmd.cmd i = u.cmd i)) ∧
    ((¬ ∀ k, k ≤ i → muxRecognised (u.mode k)) →
      (writeDevice c p d).joint_cmd.mode i = d.joint_cmd.mode i ∧
      (writeDevice c p d).joint_cmd.cmd i = d.joint_cmd.cmd i) := by
  constructor
  · intro hall
    obtain ⟨l1, l2, l3, l4⟩ := reached_length c p d i hsize
    obtain ⟨st1, hstep, k1, k2, k3, k4, k5, k6⟩ :=
      writeDeviceFinger_unified c u i (reached c p d i) (by omega) (by omega) (by omega)
        (by omega) (hall i le_rfl)
    rw [← hu] at hstep
    obtain ⟨a1, a2, -⟩ :=
      writeDevice_at c p d hrun hsize hi
        (fun tmp htmp j hj => by
          rw [hu] at htmp
          cases htmp
          exact hall j (le_of_lt hj))
        st1 hstep
    obtain ⟨b1, b2, -⟩ := reached_sameSlot c p d i
    rw [a1, a2]
    refine ⟨?_, ?_, ?_⟩
    · intro h
      rw [k6 h]
      exact ⟨b1, b2⟩
    · intro h
      obtain ⟨m1, m2, -⟩ := k5 h
      exact ⟨m1, m2.trans b2⟩
    · intro hs hidle
      have hcase := hall i le_rfl
      unfold muxRecognised at hcase
      rcases hcase with h | h | h | h | h | h
      · exact absurd h hs
      · exact absurd h hidle
      · obtain ⟨m1, m2, -⟩ := k1 h
        exact ⟨m1.trans h.symm, m2⟩
      · obtain ⟨m1, m2, -⟩ := k2 h
        exact ⟨m1.trans h.symm, m2⟩
      · obtain ⟨m1, m2, -⟩ := k3 h
        exact ⟨m1.trans h.symm, m2⟩
      · obtain ⟨m1, m2, -⟩ := k4 h
        exact ⟨m1.trans h.symm, m2⟩
  · intro hbad
    obtain ⟨a1, a2, -⟩ := writeDevice_skipped c p d u i hrun hsize hu hi hbad
    exact ⟨a1, a2⟩

/-- A cycle in the run mode Run writes mode and setpoint of fingers 0..3 only. -/
theorem writeDevice_beyond (c : Collaborators) (p : Ports) (d : HandSimDevice)
    (hrun : d.run_mode = RunMode.RUN) (hsize : wellSized p d) (i : Nat) (hi : 4 ≤ i) :
    (writeDevice c p d).joint_cmd.mode i = d.joint_cmd.mode i ∧
    (writeDevice c p d).joint_cmd.cmd i = d.joint_cmd.cmd i := by
  rw [writeDevice_run c p d hrun hsize]
  obtain ⟨a1, a2, -⟩ :=
    writeDeviceLoop_other c p.joint_cmd_in i [0, 1, 2, 3] (polled p d)
      (by intro hm; simp at hm; omega)
  exact ⟨a1, a2⟩

theorem medialOf_eq (i : Nat) (hi : i < 4) : medialOf i = if i = 3 then 0 else i + 2 := by
  interval_cases i <;> simp [medialOf, fingerToJointIDs]

/-- A unified entry of Trapezoidal mode re-initialises the profile of its finger. -/
theorem writeDeviceFinger_trapezoidal (c : Collaborators) (u : BHandCmd) (i : Nat)
    (st : MuxState) (hi : i < 4) (h4 : i < st.dev.joint_trapezoidal_cmd.length)
    (h : u.mode i = Mode.MODE_TRAPEZOIDAL) :
    ∃ st1, writeDeviceFinger c (some u) i st = some st1 ∧
      st1.dev.joint_cmd.mode i = Mode.MODE_TRAPEZOIDAL ∧ st1.dev.joint_cmd.cmd i = u.cmd i ∧
      st1.dev.joint_trapezoidal_cmd[i]? = some (u.cmd i) ∧
      st1.dev.trap_generators i = reinitialised st.dev i (u.cmd i) ∧
      st1.dev.trap_start_times i = c.rtt_now i := by
  have hmed := medialOf_eq i hi
  unfold medialOf at hmed
  refine ⟨_, by simp only [writeDeviceFinger, h]; rfl, ?_⟩
  simp [h, updateCommand, HandSimDevice.setMode, HandSimDevice.setCmd, Function.update,
    List.getD, List.getElem?_set, h4, reinitialised, hmed]

theorem reached_reinitialised (c : Collaborators) (p : Ports) (d : HandSimDevice) (i : Nat)
    (target : ℚ) : reinitialised (reached c p d i).dev i target = reinitialised d i target := by
  have hs := reached_sameSlot c p d i
  have hp := writeDeviceLoop_sameShape c p.joint_cmd_in (List.range i) (polled p d)
  unfold sameSlot at hs
  unfold sameShape at hp
  have h1 : (reached c p d i).dev.trap_generators i = d.trap_generators i := hs.2.2.2.2.2.2.1
  have h2 : (reached c p d i).dev.joint_position = d.joint_position := hp.2.2.2.2
  simp only [reinitialised, h1, h2]

/-- With ill-sized vectors a cycle in the run mode Run only stores what was polled. -/
theorem writeDevice_mismatch (c : Collaborators) (p : Ports) (d : HandSimDevice)
    (hrun : d.run_mode = RunMode.RUN) (hsize : ¬ wellSized p d) :
    writeDevice c p d = (polled p d).dev := by
  unfold writeDevice
  rw [hrun]
  refine if_pos ?_
  by_contra hno
  apply hsize
  simp only [not_or, ne_eq, not_not] at hno
  exact hno

/-- Without a unified command a cycle keeps every mode. -/
theorem writeDevice_none_mode (c : Collaborators) (p : Ports) (d : HandSimDevice)
    (hrun : d.run_mode = RunMode.RUN) (hsize : wellSized p d) (hp : p.joint_cmd_in = none)
    (i : Nat) (hi : i < 4) :
    (writeDevice c p d).joint_cmd.mode i = d.joint_cmd.mode i := by
  have hstep : writeDeviceFinger c p.joint_cmd_in i (reached c p d i)
      = some (updateCommand c i (reached c p d i)) := by
    rw [hp]; rfl
  have hat := writeDevice_at c p d hrun hsize hi
    (fun tmp htmp => by rw [hp] at htmp; cases htmp) _ hstep
  have hre := reached_sameSlot c p d i
  unfold sameSlot at hat hre
  rw [hat.1, congrFun (updateCommand_keeps c i (reached c p d i)).2.2.2.2.2.2.2.2 i]
  exact hre.1

/-- Outside the run mode Run a cycle never puts a finger into Trapezoidal mode. -/
theorem writeDevice_init_mode (c : Collaborators) (p : Ports) (d : HandSimDevice)
    (hrun : d.run_mode ≠ RunMode.RUN) (i : Nat)
    (h : (writeDevice c p d).joint_cmd.mode i = Mode.MODE_TRAPEZOIDAL) :
    d.joint_cmd.mode i = Mode.MODE_TRAPEZOIDAL := by
  unfold writeDevice at h
  cases hr : d.run_mode with
  | IDLE =>
    rw [hr] at h
    exact h
  | RUN => exact absurd hr hrun
  | INITIALIZE =>
    rw [hr] at h
    cases hs : d.init_state <;> rw [hs] at h <;> dsimp only at h
    · exact h
    · split_ifs at h <;> exact h
    · split_ifs at h <;> exact h
    · simp only [HandSimDevice.close, HandSimDevice.setMode, HandSimDevice.setCmd,
        Function.update_apply] at h
      split_ifs at h
      exact h

/-! ## The claims -/

/-- C1: for a finger `i < 3` and a `writeSim` cycle in which fingers `0..i` all have a
recognised mode, the finger-level torque `tau` is computed, `link_torque[i]` is the
reaction torque read from the medial joint `i + 2`, and the torque switch moves as
follows: from Coupled it is Breakaway afterwards iff the link torque read this cycle is
strictly greater than `breakaway_torque`; from Breakaway it is Coupled afterwards iff
`tau < 0` and the medial joint position is `> 0.01`. -/
theorem C1_torque_switch_transition (c : Collaborators) (d : HandSimDevice) (i : Nat)
    (hi : i < 3) (hrec : ∀ j, j ≤ i → simRecognised (d.joint_cmd.mode j)) :
    ∃ tau, fingerTorque c d i = some tau ∧
      (writeSim c d).dev.link_torque i = c.body2TorqueZ (i + 2) ∧
      (d.torque_switches i = false →
        ((writeSim c d).dev.torque_switches i = true ↔
          (writeSim c d).dev.link_torque i > d.breakaway_torque)) ∧
      (d.torque_switches i = true →
        ((writeSim c d).dev.torque_switches i = false ↔
          (tau < 0 ∧ d.joint_position (i + 2) > 0.01))) := by
  obtain ⟨tau, htau⟩ := (fingerTorque_isSome_iff c d i).2 (hrec i le_rfl)
  obtain ⟨h1, -, h3, -, -, -⟩ :=
    writeSim_finger c d hi (fun j hj => hrec j (le_of_lt hj)) htau
  refine ⟨tau, htau, ?_, ?_, ?_⟩
  · rw [h3]
    unfold torqueSwitchOutput torqueSwitchUpdate SimState.SetForce
    simp only [medialOf_finger hi]
    split_ifs <;> simp
  · intro hs
    rw [h1, h3]
    unfold torqueSwitchOutput torqueSwitchUpdate SimState.SetForce
    simp only [medialOf_finger hi, hs]
    split_ifs <;> simp_all
  · intro hs
    rw [h1]
    unfold torqueSwitchOutput torqueSwitchUpdate SimState.SetForce
    simp only [medialOf_finger hi, hs]
    split_ifs <;> simp_all

/-- Witness of C1: in the scenario of the spec (finger 0 Coupled, link torque 3,
threshold 2.5) the switch of finger 0 is in Breakaway after the cycle. -/
theorem C1_scenario :
    (writeSim linkTorque3 torqueScenario).dev.torque_switches 0 = true := by
  obtain ⟨tau, -, hl, hc, -⟩ :=
    C1_torque_switch_transition linkTorque3 torqueScenario 0 (by decide) (by decide)
  exact (hc rfl).2
    (by rw [hl]; norm_num [linkTorque3, quietCollaborators, torqueScenario, restDevice])

/-- C2: a finger `i < 3` that is Coupled at the start of the cycle, is reached by the
loop with a recognised mode, reads a link torque greater than `breakaway_torque` and
computes a torque `tau > 0` is switched to Breakaway in that same cycle, which writes
`breakaway_torque` to the medial joint `i + 2` and `(1/3) * tau` to the distal joint
`i + 5`. -/
theorem C2_breakaway_closing (c : Collaborators) (d : HandSimDevice) (i : Nat) (tau : ℚ)
    (hi : i < 3) (hrec : ∀ j, j < i → simRecognised (d.joint_cmd.mode j))
    (hcoupled : d.torque_switches i = false)
    (hlink : c.body2TorqueZ (i + 2) > d.breakaway_torque)
    (htau : fingerTorque c d i = some tau) (hpos : tau > 0) :
    (writeSim c d).dev.torque_switches i = true ∧
      (writeSim c d).force (i + 2) = some d.breakaway_torque ∧
      (writeSim c d).force (i + 5) = some ((1 / 3) * tau) := by
  obtain ⟨h1, -, -, -, h5, h6⟩ := writeSim_finger c d hi hrec htau
  rw [medialOf_finger hi] at h5
  rw [distalOf_finger hi] at h6
  rw [h1, h5, h6]
  unfold torqueSwitchOutput torqueSwitchUpdate SimState.SetForce
  simp only [medialOf_finger hi, distalOf_finger hi, hcoupled, FINGER_JOINT_RATIO]
  simp [Function.update, hlink, hpos]

/-- Witness of C2, the scenario of the claim: finger 0 in Torque mode with command 5,
link torque 3 and threshold 2.5 gives medial force 2.5 and distal force (1/3) * 5. -/
theorem C2_scenario :
    (writeSim linkTorque3 torqueScenario).dev.torque_switches 0 = true ∧
      (writeSim linkTorque3 torqueScenario).force 2 = some 2.5 ∧
      (writeSim linkTorque3 torqueScenario).force 5 = some ((1 / 3) * 5) :=
  C2_breakaway_closing linkTorque3 torqueScenario 0 5 (by decide) (by intro j hj; omega) rfl
    (by norm_num [linkTorque3, quietCollaborators, torqueScenario, restDevice]) rfl
    (by norm_num)

/-- Counterexample to C4 as stated: finger 0 is in Breakaway with torque -1 (so
`tau <= 0`) and its medial joint is at 0.5 > 0.01.  The switch disengages first, so
the distal joint receives the Coupled force 10 * ((1/3) * 0.5 - 0.2) = -1/3 and not the
hold force 10 * (0.3 - 0.2). -/
theorem C4_counterexample :
    retractScenario.torque_switches 0 = true ∧
      fingerTorque (quietCollaborators fun _ => 0) retractScenario 0 = some (-1) ∧
      (writeSim (quietCollaborators fun _ => 0) retractScenario).force 2 = some (-1) ∧
      (writeSim (quietCollaborators fun _ => 0) retractScenario).force 5 = some (-1 / 3) ∧
      (writeSim (quietCollaborators fun _ => 0) retractScenario).force 5 ≠
        some (10 * (retractScenario.breakaway_angle 0 - retractScenario.joint_position 5)) := by
  have htau : fingerTorque (quietCollaborators fun _ => 0) retractScenario 0 = some (-1) := rfl
  obtain ⟨-, -, -, -, h5, h6⟩ :=
    writeSim_finger (quietCollaborators fun _ => 0) retractScenario (by decide)
      (by intro j hj; omega) htau
  rw [medialOf_finger (by decide)] at h5
  rw [distalOf_finger (by decide)] at h6
  refine ⟨rfl, htau, ?_, ?_, ?_⟩
  · rw [h5]
    norm_num [torqueSwitchOutput, torqueSwitchUpdate, SimState.SetForce, medialOf, distalOf,
      fingerToJointIDs, retractScenario, restDevice, Function.update]
  · rw [h6]
    norm_num [torqueSwitchOutput, torqueSwitchUpdate, SimState.SetForce, medialOf, distalOf,
      fingerToJointIDs, retractScenario, restDevice, Function.update, KNUCKLE_GAIN,
      FINGER_JOINT_RATIO]
  · rw [h6]
    norm_num [torqueSwitchOutput, torqueSwitchUpdate, SimState.SetForce, medialOf, distalOf,
      fingerToJointIDs, retractScenario, restDevice, Function.update, KNUCKLE_GAIN,
      FINGER_JOINT_RATIO]

/-- C4, amended: for a finger `i < 3` in Breakaway at the start of a cycle that
computes its torque `tau` (the fingers before `i` have a recognised mode) with
`tau <= 0`, the cycle writes `tau` to the medial joint; when the switch stays engaged
(not both `tau < 0` and medial position `> 0.01`) the distal joint receives the hold
force `10 * (breakaway_angle[i] - distal position)`; when `tau < 0` and the medial
position is `> 0.01` the switch disengages in that cycle and the distal joint receives
the Coupled force `10 * ((1/3) * medial position - distal position)`. -/
theorem C4_breakaway_opening (c : Collaborators) (d : HandSimDevice) (i : Nat) (tau : ℚ)
    (hi : i < 3) (hrec : ∀ j, j < i → simRecognised (d.joint_cmd.mode j))
    (hbreak : d.torque_switches i = true)
    (htau : fingerTorque c d i = some tau) (hneg : tau ≤ 0) :
    (writeSim c d).force (i + 2) = some tau ∧
      (¬ (tau < 0 ∧ d.joint_position (i + 2) > 0.01) →
        (writeSim c d).dev.torque_switches i = true ∧
        (writeSim c d).force (i + 5) =
          some (10 * (d.breakaway_angle i - d.joint_position (i + 5)))) ∧
      ((tau < 0 ∧ d.joint_position (i + 2) > 0.01) →
        (writeSim c d).dev.torque_switches i = false ∧
        (writeSim c d).force (i + 5) =
          some (10 * ((1 / 3) * d.joint_position (i + 2) - d.joint_position (i + 5)))) := by
  obtain ⟨h1, -, -, -, h5, h6⟩ := writeSim_finger c d hi hrec htau
  rw [medialOf_finger hi] at h5
  rw [distalOf_finger hi] at h6
  rw [h1, h5, h6]
  have hnp : ¬ tau > 0 := not_lt.mpr hneg
  unfold torqueSwitchOutput torqueSwitchUpdate SimState.SetForce
  simp only [medialOf_finger hi, distalOf_finger hi, hbreak, FINGER_JOINT_RATIO, KNUCKLE_GAIN]
  refine ⟨?_, ?_, ?_⟩
  · split_ifs <;> simp_all [Function.update]
  · intro h
    split_ifs <;> simp_all [Function.update]
  · intro h
    split_ifs <;> simp_all [Function.update]

/-- Witness of amended C4: finger 0 in Breakaway with torque 0 keeps the switch
engaged and holds the distal joint at the latched angle. -/
theorem C4_hold_finger0 :
    (writeSim (quietCollaborators fun _ => 0) holdScenario).dev.torque_switches 0 = true ∧
      (writeSim (quietCollaborators fun _ => 0) holdScenario).force 5 =
        some (10 * (0.3 - 0.2)) :=
  (C4_breakaway_opening (quietCollaborators fun _ => 0) holdScenario 0 0 (by decide)
    (by intro j hj; omega) rfl rfl le_rfl).2.1 (by norm_num)

/-- C5: for a finger `i < 3` that is Coupled at the start of a cycle that computes its
torque `tau` (the fingers before `i` have a recognised mode) and whose link torque does
not exceed `breakaway_torque`, the cycle writes `tau` to the medial joint and
`10 * ((1/3) * medial position - distal position)` to the distal joint, leaves
`breakaway_angle[i]` unchanged and keeps the finger Coupled. -/
theorem C5_coupled_output (c : Collaborators) (d : HandSimDevice) (i : Nat) (tau : ℚ)
    (hi : i < 3) (hrec : ∀ j, j < i → simRecognised (d.joint_cmd.mode j))
    (hcoupled : d.torque_switches i = false)
    (hlink : ¬ c.body2TorqueZ (i + 2) > d.breakaway_torque)
    (htau : fingerTorque c d i = some tau) :
    (writeSim c d).force (i + 2) = some tau ∧
      (writeSim c d).force (i + 5) =
        some (10 * ((1 / 3) * d.joint_position (i + 2) - d.joint_position (i + 5))) ∧
      (writeSim c d).dev.breakaway_angle i = d.breakaway_angle i ∧
      (writeSim c d).dev.torque_switches i = false := by
  obtain ⟨h1, h2, -, -, h5, h6⟩ := writeSim_finger c d hi hrec htau
  rw [medialOf_finger hi] at h5
  rw [distalOf_finger hi] at h6
  rw [h1, h2, h5, h6]
  unfold torqueSwitchOutput torqueSwitchUpdate SimState.SetForce
  simp only [medialOf_finger hi, distalOf_finger hi, hcoupled, FINGER_JOINT_RATIO, KNUCKLE_GAIN]
  split_ifs <;> simp_all [Function.update] <;> linarith

/-- Witness of C5: finger 1 under position control, no link torque. -/
theorem C5_pid_finger1 :
    (writeSim (quietCollaborators fun _ => 0) pidScenario).force 3 =
        some (25 * (1 - (0.3 + 0.1)) - 1 * (0.1 + 0.05)) ∧
      (writeSim (quietCollaborators fun _ => 0) pidScenario).force 6 =
        some (10 * ((1 / 3) * 0.3 - 0.1)) ∧
      (writeSim (quietCollaborators fun _ => 0) pidScenario).dev.breakaway_angle 1 = 0 ∧
      (writeSim (quietCollaborators fun _ => 0) pidScenario).dev.torque_switches 1 = false :=
  C5_coupled_output (quietCollaborators fun _ => 0) pidScenario 1 _ (by decide)
    (by intro j hj; interval_cases j; decide) rfl
    (by norm_num [quietCollaborators, pidScenario, restDevice]) rfl

/-- C6: in a cycle that computes the torque `tau` of the spread finger (fingers 0..2
have a recognised mode), `writeSim` writes `tau - 100*(p0 - p1)` to joint 0 and
`tau + 100*(p0 - p1)` to joint 1, whatever the joint velocities and torque-switch
flags of the device are; the two forces sum to `2*tau`, the constraint parts are
opposite, and each pushes its joint towards the position of the other. -/
theorem C6_spread_forces (c : Collaborators) (d : HandSimDevice) (tau : ℚ)
    (hrec : ∀ j, j < 3 → simRecognised (d.joint_cmd.mode j))
    (htau : fingerTorque c d 3 = some tau) :
    ∃ f0 f1 : ℚ, (writeSim c d).force 0 = some f0 ∧ (writeSim c d).force 1 = some f1 ∧
      f0 = tau - 100 * (d.joint_position 0 - d.joint_position 1) ∧
      f1 = tau + 100 * (d.joint_position 0 - d.joint_position 1) ∧
      f0 + f1 = 2 * tau ∧ f0 - tau = -(f1 - tau) ∧
      (d.joint_position 1 < d.joint_position 0 → f0 < tau ∧ tau < f1) ∧
      (d.joint_position 0 < d.joint_position 1 → tau < f0 ∧ f1 < tau) := by
  obtain ⟨-, -, -, -, h5, h6⟩ := writeSim_spread c d hrec htau
  rw [medialOf_spread] at h5
  rw [distalOf_spread] at h6
  refine ⟨tau - 100 * (d.joint_position 0 - d.joint_position 1),
    tau + 100 * (d.joint_position 0 - d.joint_position 1), ?_, ?_, rfl, rfl, by ring, by ring,
    ?_, ?_⟩
  · rw [h5]
    simp only [writeSimSpread, SimState.SetForce]
    simp [Function.update]
    ring
  · rw [h6]
    simp only [writeSimSpread, SimState.SetForce]
    simp [Function.update]
    ring
  · intro h
    constructor <;> linarith
  · intro h
    constructor <;> linarith

/-- Witness of C6: spread torque 2 with joints 0 and 1 at 0.3 and 0.1. -/
theorem C6_spread_scenario :
    (writeSim (quietCollaborators fun _ => 0) spreadScenario).force 0 =
        some (2 - 100 * (0.3 - 0.1)) ∧
      (writeSim (quietCollaborators fun _ => 0) spreadScenario).force 1 =
        some (2 + 100 * (0.3 - 0.1)) := by
  obtain ⟨f0, f1, h0, h1, e0, e1, -⟩ :=
    C6_spread_forces (quietCollaborators fun _ => 0) spreadScenario 2 (by decide) rfl
  rw [h0, h1, e0, e1]
  exact ⟨rfl, rfl⟩

/-- C7: in Run mode, when after polling one of the four per-type command vectors does
not have exactly 4 entries, `writeDevice` leaves every mode, every setpoint, every
trapezoidal profile and every profile start time as they were, whatever the unified
port delivered. -/
theorem C7_size_mismatch (c : Collaborators) (p : Ports) (d : HandSimDevice)
    (hrun : d.run_mode = RunMode.RUN)
    (hsize : (readNewest p.joint_torque_in d.joint_torque_cmd).1.length ≠ 4 ∨
      (readNewest p.joint_position_in d.joint_position_cmd).1.length ≠ 4 ∨
      (readNewest p.joint_velocity_in d.joint_velocity_cmd).1.length ≠ 4 ∨
      (readNewest p.joint_trapezoidal_in d.joint_trapezoidal_cmd).1.length ≠ 4) :
    (writeDevice c p d).joint_cmd.mode = d.joint_cmd.mode ∧
      (writeDevice c p d).joint_cmd.cmd = d.joint_cmd.cmd ∧
      (writeDevice c p d).trap_generators = d.trap_generators ∧
      (writeDevice c p d).trap_start_times = d.trap_start_times := by
  have hval : writeDevice c p d = (polled p d).dev := by
    unfold writeDevice
    rw [hrun]
    exact if_pos hsize
  rw [hval]
  exact ⟨rfl, rfl, rfl, rfl⟩

/-- Witness of C7: a torque vector of three entries arrives with a unified command
asking for Velocity mode; nothing is applied. -/
theorem C7_short_torque :
    (writeDevice (quietCollaborators fun _ => 0) shortTorque torqueHeld).joint_cmd.mode =
        torqueHeld.joint_cmd.mode ∧
      (writeDevice (quietCollaborators fun _ => 0) shortTorque torqueHeld).joint_cmd.cmd =
        torqueHeld.joint_cmd.cmd ∧
      (writeDevice (quietCollaborators fun _ => 0) shortTorque torqueHeld).trap_generators =
        torqueHeld.trap_generators ∧
      (writeDevice (quietCollaborators fun _ => 0) shortTorque torqueHeld).trap_start_times =
        torqueHeld.trap_start_times :=
  C7_size_mismatch (quietCollaborators fun _ => 0) shortTorque torqueHeld rfl
    (Or.inl (by decide))

/-- C8: in Run mode with well-sized vectors, when the unified command `u` has an
unrecognised mode for finger `k` and recognised modes before `k`, `writeDevice` leaves
mode and setpoint of every finger `j >= k` unchanged, and for fingers `j < k` it gives
the same mode and setpoint as with any unified command `v` that agrees with `u` on
the fingers before `k` (in particular `u` with the bad entry replaced). -/
theorem C8_unrecognised_mode (c : Collaborators) (p : Ports) (d : HandSimDevice)
    (u : BHandCmd) (k : Nat) (hrun : d.run_mode = RunMode.RUN) (hsize : wellSized p d)
    (hu : p.joint_cmd_in = some u) (hk : k < 4) (hbad : ¬ muxRecognised (u.mode k))
    (hfirst : ∀ j, j < k → muxRecognised (u.mode j)) :
    (∀ j, k ≤ j →
      (writeDevice c p d).joint_cmd.mode j = d.joint_cmd.mode j ∧
      (writeDevice c p d).joint_cmd.cmd j = d.joint_cmd.cmd j) ∧
    (∀ v : BHandCmd, (∀ j, j < k → v.mode j = u.mode j ∧ v.cmd j = u.cmd j) →
      ∀ j, j < k →
        (writeDevice c p d).joint_cmd.mode j =
          (writeDevice c { p with joint_cmd_in := some v } d).joint_cmd.mode j ∧
        (writeDevice c p d).joint_cmd.cmd j =
          (writeDevice c { p with joint_cmd_in := some v } d).joint_cmd.cmd j) := by
  have hsplit : ∃ l2, [0, 1, 2, 3] = List.range k ++ k :: l2 ∧ ∀ j, j < k → j ∉ k :: l2 := by
    interval_cases k
    · exact ⟨[1, 2, 3], rfl, by decide⟩
    · exact ⟨[2, 3], rfl, by decide⟩
    · exact ⟨[3], rfl, by decide⟩
    · exact ⟨[], rfl, by decide⟩
  obtain ⟨l2, hl, hnot⟩ := hsplit
  have hres : writeDevice c p d
      = (writeDeviceLoop c (some u) (List.range k) (polled p d)).dev := by
    rw [writeDevice_run c p d hrun hsize, hu, hl]
    rw [writeDeviceLoop_return c u k (List.range k) l2 (polled p d)
      (fun j hj => hfirst j (List.mem_range.1 hj)) hbad]
  constructor
  · intro j hj
    have hmem : j ∉ List.range k := by
      simp only [List.mem_range, not_lt]
      exact hj
    obtain ⟨h1, h2, -⟩ := writeDeviceLoop_other c (some u) j (List.range k) (polled p d) hmem
    rw [hres]
    exact ⟨h1, h2⟩
  · intro v hv j hj
    have hsize2 : wellSized { p with joint_cmd_in := some v } d := hsize
    have hres2 : writeDevice c { p with joint_cmd_in := some v } d
        = (writeDeviceLoop c (some v) (List.range k ++ k :: l2) (polled p d)).dev := by
      rw [writeDevice_run c _ d hrun hsize2, hl]
      rfl
    obtain ⟨h1, h2, -⟩ :=
      writeDeviceLoop_front c (some v) j (k :: l2) (hnot j hj) (List.range k) (polled p d)
    rw [hres, hres2, h1, h2,
      writeDeviceLoop_entries c u v (List.range k) (polled p d)
        (fun i hi => hv i (List.mem_range.1 hi))]
    exact ⟨rfl, rfl⟩

/-- Witness of C8: with mode byte 99 for finger 1, finger 2 keeps its Idle mode and
its setpoint 0 although the unified command asks for Position mode there. -/
theorem C8_bad_second :
    ((writeDevice (quietCollaborators fun _ => 0) badSecond torqueHeld).joint_cmd.mode 2 =
        Mode.MODE_IDLE ∧
      (writeDevice (quietCollaborators fun _ => 0) badSecond torqueHeld).joint_cmd.cmd 2 = 0) :=
  (C8_unrecognised_mode (quietCollaborators fun _ => 0) badSecond torqueHeld _ 1 rfl
    ⟨rfl, rfl, rfl, rfl⟩ rfl (by decide) (by decide) (by decide)).1 2 (by decide)

/-- Counterexample to C9 as stated, two inputs.  Finger 0 is in Torque mode with
setpoint 0 and the torque port delivers 7,7,7,7.  With a unified command of mode
`MODE_SAME` the `continue` skips the copy; with a unified command of the unrecognised
mode byte 99 the `return` skips it.  In both the torque stream was updated and matches
the active mode of finger 0, its entry is 7, and the setpoint stays 0. -/
theorem C9_counterexample :
    (torqueHeld.run_mode = RunMode.RUN ∧ wellSized (torque7With Mode.MODE_SAME) torqueHeld ∧
      (writeDevice (quietCollaborators fun _ => 0) (torque7With Mode.MODE_SAME)
        torqueHeld).joint_cmd.mode 0 = Mode.MODE_TORQUE ∧
      streamUpdated (torque7With Mode.MODE_SAME) 0 Mode.MODE_TORQUE ∧
      ((writeDevice (quietCollaborators fun _ => 0) (torque7With Mode.MODE_SAME)
        torqueHeld).stream Mode.MODE_TORQUE)[0]? = some 7 ∧
      (writeDevice (quietCollaborators fun _ => 0) (torque7With Mode.MODE_SAME)
        torqueHeld).joint_cmd.cmd 0 = 0) ∧
    (wellSized (torque7With (Mode.other 99)) torqueHeld ∧
      (writeDevice (quietCollaborators fun _ => 0) (torque7With (Mode.other 99))
        torqueHeld).joint_cmd.mode 0 = Mode.MODE_TORQUE ∧
      streamUpdated (torque7With (Mode.other 99)) 0 Mode.MODE_TORQUE ∧
      ((writeDevice (quietCollaborators fun _ => 0) (torque7With (Mode.other 99))
        torqueHeld).stream Mode.MODE_TORQUE)[0]? = some 7 ∧
      (writeDevice (quietCollaborators fun _ => 0) (torque7With (Mode.other 99))
        torqueHeld).joint_cmd.cmd 0 = 0) ∧
    (7 : ℚ) ≠ 0 :=
  ⟨⟨rfl, ⟨rfl, rfl, rfl, rfl⟩, rfl, Or.inl rfl, rfl, rfl⟩,
    ⟨⟨rfl, rfl, rfl, rfl⟩, rfl, Or.inl rfl, rfl, rfl⟩, by norm_num⟩

/-- C9, amended: in Run mode with well-sized vectors, for a finger `i < 4`, when no
unified command arrived, or the unified command has recognised modes for fingers
`0..i` and a mode other than `MODE_SAME` for finger `i`: if the stream that matches the
mode of finger `i` after the cycle was updated this cycle (by its port, or by a
unified entry of a finger up to `i`), the setpoint of finger `i` after the cycle is
entry `i` of that stream. -/
theorem C9_setpoint_follows_stream (c : Collaborators) (p : Ports) (d : HandSimDevice)
    (i : Nat) (m : Mode) (hrun : d.run_mode = RunMode.RUN) (hsize : wellSized p d)
    (hi : i < 4)
    (hu : ∀ u, p.joint_cmd_in = some u →
      (∀ j, j ≤ i → muxRecognised (u.mode j)) ∧ u.mode i ≠ Mode.MODE_SAME)
    (hm : m = Mode.MODE_TORQUE ∨ m = Mode.MODE_PID ∨ m = Mode.MODE_VELOCITY ∨
      m = Mode.MODE_TRAPEZOIDAL)
    (hmode : (writeDevice c p d).joint_cmd.mode i = m)
    (hupd : streamUpdated p i m) :
    ((writeDevice c p d).stream m)[i]? = some ((writeDevice c p d).joint_cmd.cmd i) := by
  obtain ⟨l1, l2, l3, l4⟩ := reached_length c p d i hsize
  cases hp : p.joint_cmd_in with
  | none =>
    have hstep : writeDeviceFinger c p.joint_cmd_in i (reached c p d i)
        = some (updateCommand c i (reached c p d i)) := by
      rw [hp]; rfl
    obtain ⟨a1, a2, a3, a4, a5, a6, -, -⟩ :=
      writeDevice_at c p d hrun hsize hi (fun tmp htmp => by rw [hp] at htmp; cases htmp)
        _ hstep
    obtain ⟨-, -, -, -, e5, e6, e7, e8, e9⟩ := updateCommand_keeps c i (reached c p d i)
    have hfl := writeDeviceLoop_none_keeps c (List.range i) (polled p d)
    have hre : reached c p d i = writeDeviceLoop c none (List.range i) (polled p d) := by
      unfold reached; rw [hp]
    rw [← hre] at hfl
    obtain ⟨f1, f2, f3, f4, -⟩ := hfl
    obtain ⟨k1, k2, k3, k4⟩ :=
      updateCommand_copies c i (reached c p d i) (by omega) (by omega) (by omega) (by omega)
    have hfresh : p.fresh m = true := by
      rcases hupd with h | ⟨u, hu', -⟩
      · exact h
      · rw [hp] at hu'; cases hu'
    rw [a1, e9] at hmode
    rw [a2]
    rcases hm with h | h | h | h <;> subst h
    · rw [← k1 hmode (by rw [f1]; simp only [polled, readNewest_snd]; exact hfresh), ← e5]
      exact a3
    · rw [← k2 hmode (by rw [f2]; simp only [polled, readNewest_snd]; exact hfresh), ← e6]
      exact a4
    · rw [← k3 hmode (by rw [f3]; simp only [polled, readNewest_snd]; exact hfresh), ← e7]
      exact a5
    · rw [← k4 hmode (by rw [f4]; simp only [polled, readNewest_snd]; exact hfresh), ← e8]
      exact a6
  | some u =>
    obtain ⟨hrec, hsame⟩ := hu u hp
    obtain ⟨st1, hstep, k1, k2, k3, k4, k5, -⟩ :=
      writeDeviceFinger_unified c u i (reached c p d i) (by omega) (by omega) (by omega)
        (by omega) (hrec i le_rfl)
    rw [← hp] at hstep
    obtain ⟨a1, a2, a3, a4, a5, a6, -, -⟩ :=
      writeDevice_at c p d hrun hsize hi
        (fun tmp htmp j hj => by
          rw [hp] at htmp
          cases htmp
          exact hrec j (le_of_lt hj))
        st1 hstep
    rw [a1] at hmode
    rw [a2]
    have hcase := hrec i le_rfl
    unfold muxRecognised at hcase
    rcases hcase with h | h | h | h | h | h
    · exact absurd h hsame
    · obtain ⟨q1, -, -⟩ := k5 h
      rw [q1] at hmode
      subst hmode
      simp at hm
    · obtain ⟨q1, q2, q3⟩ := k1 h
      rw [q1] at hmode
      subst hmode
      rw [q2, ← q3]
      exact a3
    · obtain ⟨q1, q2, q3⟩ := k2 h
      rw [q1] at hmode
      subst hmode
      rw [q2, ← q3]
      exact a4
    · obtain ⟨q1, q2, q3⟩ := k3 h
      rw [q1] at hmode
      subst hmode
      rw [q2, ← q3]
      exact a5
    · obtain ⟨q1, q2, q3⟩ := k4 h
      rw [q1] at hmode
      subst hmode
      rw [q2, ← q3]
      exact a6

/-- Witness of amended C9: without a unified command the new torque vector
reaches the setpoint of finger 0, which is in Torque mode. -/
theorem C9_torque7 :
    ((writeDevice (quietCollaborators fun _ => 0) torque7 torqueHeld).stream
        Mode.MODE_TORQUE)[0]? =
      some ((writeDevice (quietCollaborators fun _ => 0) torque7 torqueHeld).joint_cmd.cmd 0) :=
  C9_setpoint_follows_stream (quietCollaborators fun _ => 0) torque7 torqueHeld 0
    Mode.MODE_TORQUE rfl ⟨rfl, rfl, rfl, rfl⟩ (by decide)
    (fun u hu => by cases hu) (Or.inl rfl) rfl (Or.inl rfl)

/-- C10: in Run mode with well-sized vectors and a unified command `u` whose four
modes are all recognised, for a finger `i < 4`: when `u.mode i` is Torque, Position,
Velocity or Trapezoidal, after `writeDevice` finger `i` has that mode, setpoint
`u.cmd i`, and entry `i` of the command vector of that type is `u.cmd i`, whatever the
four ports delivered; when it is Idle the mode becomes Idle, the setpoint is unchanged
and entry `i` of the torque vector is 0; when it is `MODE_SAME` the mode is unchanged. -/
theorem C10_unified_command (c : Collaborators) (p : Ports) (d : HandSimDevice)
    (u : BHandCmd) (i : Nat) (hrun : d.run_mode = RunMode.RUN) (hsize : wellSized p d)
    (hu : p.joint_cmd_in = some u) (hrec : ∀ j, j < 4 → muxRecognised (u.mode j))
    (hi : i < 4) :
    (u.mode i = Mode.MODE_TORQUE →
      (writeDevice c p d).joint_cmd.mode i = Mode.MODE_TORQUE ∧
      (writeDevice c p d).joint_cmd.cmd i = u.cmd i ∧
      (writeDevice c p d).joint_torque_cmd[i]? = some (u.cmd i)) ∧
    (u.mode i = Mode.MODE_PID →
      (writeDevice c p d).joint_cmd.mode i = Mode.MODE_PID ∧
      (writeDevice c p d).joint_cmd.cmd i = u.cmd i ∧
      (writeDevice c p d).joint_position_cmd[i]? = some (u.cmd i)) ∧
    (u.mode i = Mode.MODE_VELOCITY →
      (writeDevice c p d).joint_cmd.mode i = Mode.MODE_VELOCITY ∧
      (writeDevice c p d).joint_cmd.cmd i = u.cmd i ∧
      (writeDevice c p d).joint_velocity_cmd[i]? = some (u.cmd i)) ∧
    (u.mode i = Mode.MODE_TRAPEZOIDAL →
      (writeDevice c p d).joint_cmd.mode i = Mode.MODE_TRAPEZOIDAL ∧
      (writeDevice c p d).joint_cmd.cmd i = u.cmd i ∧
      (writeDevice c p d).joint_trapezoidal_cmd[i]? = some (u.cmd i)) ∧
    (u.mode i = Mode.MODE_IDLE →
      (writeDevice c p d).joint_cmd.mode i = Mode.MODE_IDLE ∧
      (writeDevice c p d).joint_cmd.cmd i = d.joint_cmd.cmd i ∧
      (writeDevice c p d).joint_torque_cmd[i]? = some 0) ∧
    (u.mode i = Mode.MODE_SAME →
      (writeDevice c p d).joint_cmd.mode i = d.joint_cmd.mode i) := by
  obtain ⟨l1, l2, l3, l4⟩ := reached_length c p d i hsize
  obtain ⟨st1, hstep, k1, k2, k3, k4, k5, k6⟩ :=
    writeDeviceFinger_unified c u i (reached c p d i) (by omega) (by omega) (by omega)
      (by omega) (hrec i hi)
  rw [← hu] at hstep
  obtain ⟨a1, a2, a3, a4, a5, a6, -, -⟩ :=
    writeDevice_at c p d hrun hsize hi
      (fun tmp htmp j hj => by
        rw [hu] at htmp
        cases htmp
        exact hrec j (by omega))
      st1 hstep
  obtain ⟨b1, b2, -⟩ := reached_sameSlot c p d i
  rw [a1, a2, a3, a4, a5, a6]
  refine ⟨k1, k2, k3, k4, ?_, ?_⟩
  · intro h
    obtain ⟨m1, m2, m3⟩ := k5 h
    exact ⟨m1, m2.trans b2, m3⟩
  · intro h
    rw [k6 h]
    exact b1

/-- Witness of C10: a unified Velocity command with value 0.5 wins on finger 2
although the velocity port delivered 9,9,9,9 in the same cycle. -/
theorem C10_velocity_half :
    (writeDevice (quietCollaborators fun _ => 0) velocityHalf torqueHeld).joint_cmd.mode 2 =
        Mode.MODE_VELOCITY ∧
      (writeDevice (quietCollaborators fun _ => 0) velocityHalf torqueHeld).joint_cmd.cmd 2 =
        0.5 ∧
      (writeDevice (quietCollaborators fun _ => 0) velocityHalf torqueHeld).joint_velocity_cmd[2]? =
        some (0.5 : ℚ) :=
  (C10_unified_command (quietCollaborators fun _ => 0) velocityHalf torqueHeld _ 2 rfl
    ⟨rfl, rfl, rfl, rfl⟩ rfl (by decide) (by decide)).2.2.1 rfl

/-- C11: in Run mode with well-sized vectors, running `writeDevice` with the unified
command `u` and no per-type stream update, and then again with the same `u` and no
per-type stream update, leaves every mode and every setpoint after the second cycle
equal to what they were after the first.  The proof does not use that the per-type
ports are quiet: with a unified command present the mode and setpoint of a finger do
not depend on them. -/
theorem C11_mux_idempotent (c1 c2 : Collaborators) (p1 p2 : Ports) (d : HandSimDevice)
    (u : BHandCmd) (hrun : d.run_mode = RunMode.RUN)
    (hsize1 : wellSized p1 d) (hsize2 : wellSized p2 (writeDevice c1 p1 d))
    (hu1 : p1.joint_cmd_in = some u) (hu2 : p2.joint_cmd_in = some u)
    (_hq1 : p1.quiet) (_hq2 : p2.quiet) :
    (writeDevice c2 p2 (writeDevice c1 p1 d)).joint_cmd.mode =
      (writeDevice c1 p1 d).joint_cmd.mode ∧
    (writeDevice c2 p2 (writeDevice c1 p1 d)).joint_cmd.cmd =
      (writeDevice c1 p1 d).joint_cmd.cmd := by
  have hrun2 := writeDevice_stays_run c1 p1 d hrun
  have hslot : ∀ i,
      (writeDevice c2 p2 (writeDevice c1 p1 d)).joint_cmd.mode i =
        (writeDevice c1 p1 d).joint_cmd.mode i ∧
      (writeDevice c2 p2 (writeDevice c1 p1 d)).joint_cmd.cmd i =
        (writeDevice c1 p1 d).joint_cmd.cmd i := by
    intro i
    by_cases hi : i < 4
    · obtain ⟨f1, g1⟩ := writeDevice_unified_slot c1 p1 d u i hrun hsize1 hu1 hi
      obtain ⟨f2, g2⟩ := writeDevice_unified_slot c2 p2 _ u i hrun2 hsize2 hu2 hi
      by_cases hall : ∀ k, k ≤ i → muxRecognised (u.mode k)
      · obtain ⟨s1, i1, t1⟩ := f1 hall
        obtain ⟨s2, i2, t2⟩ := f2 hall
        by_cases hs : u.mode i = Mode.MODE_SAME
        · exact s2 hs
        · by_cases hidle : u.mode i = Mode.MODE_IDLE
          · exact ⟨(i2 hidle).1.trans (i1 hidle).1.symm, (i2 hidle).2⟩
          · exact ⟨(t2 hs hidle).1.trans (t1 hs hidle).1.symm,
              (t2 hs hidle).2.trans (t1 hs hidle).2.symm⟩
      · exact g2 hall
    · exact writeDevice_beyond c2 p2 _ hrun2 hsize2 i (by omega)
  exact ⟨funext fun i => (hslot i).1, funext fun i => (hslot i).2⟩

/-- Witness of C11: a unified command with Torque, Idle, Trapezoidal and `MODE_SAME`
entries applied twice. -/
theorem C11_mixed_twice :
    (writeDevice linkTorque3 mixedUnified
        (writeDevice (quietCollaborators fun _ => 0) mixedUnified torqueHeld)).joint_cmd.mode =
      (writeDevice (quietCollaborators fun _ => 0) mixedUnified torqueHeld).joint_cmd.mode ∧
    (writeDevice linkTorque3 mixedUnified
        (writeDevice (quietCollaborators fun _ => 0) mixedUnified torqueHeld)).joint_cmd.cmd =
      (writeDevice (quietCollaborators fun _ => 0) mixedUnified torqueHeld).joint_cmd.cmd :=
  C11_mux_idempotent (quietCollaborators fun _ => 0) linkTorque3 mixedUnified mixedUnified
    torqueHeld _ rfl ⟨rfl, rfl, rfl, rfl⟩ ⟨rfl, rfl, rfl, rfl⟩ rfl rfl ⟨rfl, rfl, rfl, rfl⟩
    ⟨rfl, rfl, rfl, rfl⟩

/-- Counterexample to C13 as stated: `setTrapezoidalMode` takes finger 0 from Idle to
Trapezoidal mode and leaves its profile (start position 0, medial joint at 0.5) and
its start time as they were. -/
theorem C13_counterexample :
    idleAtHalf.joint_cmd.mode 0 ≠ Mode.MODE_TRAPEZOIDAL ∧
    ( HandSimDevice.setTrapezoidalMode idleAtHalf 0).joint_cmd.mode 0 =
      Mode.MODE_TRAPEZOIDAL ∧
    ( HandSimDevice.setTrapezoidalMode idleAtHalf 0).trap_generators 0 =
      idleAtHalf.trap_generators 0 ∧
    (( HandSimDevice.setTrapezoidalMode idleAtHalf 0).trap_generators 0).startpos = 0 ∧
    ( HandSimDevice.setTrapezoidalMode idleAtHalf 0).joint_position 2 = 0.5 ∧
    ( HandSimDevice.setTrapezoidalMode idleAtHalf 0).trap_start_times 0 =
      idleAtHalf.trap_start_times 0 ∧
    (0 : ℚ) ≠ 0.5 :=
  ⟨by decide, rfl, rfl, rfl, rfl, rfl, by norm_num⟩

/-- C13, amended: whenever a `writeDevice` cycle takes finger `i` from another mode to
Trapezoidal mode, the same cycle re-initialises the profile of finger `i` from the
position of its medial joint to the new setpoint and sets `trap_start_times[i]` to the
current time; `setTrapezoidalMode` sets the mode and leaves every profile and every
start time as they were. -/
theorem C13_mux_entry_reinit (c : Collaborators) (p : Ports) (d : HandSimDevice) (i : Nat)
    (hold : d.joint_cmd.mode i ≠ Mode.MODE_TRAPEZOIDAL)
    (hnew : (writeDevice c p d).joint_cmd.mode i = Mode.MODE_TRAPEZOIDAL) :
    ((writeDevice c p d).trap_generators i =
        reinitialised d i ((writeDevice c p d).joint_cmd.cmd i) ∧
      (writeDevice c p d).trap_start_times i = c.rtt_now i) ∧
    (∀ (e : HandSimDevice) (k : Nat),
      ( HandSimDevice.setTrapezoidalMode e k).joint_cmd.mode k = Mode.MODE_TRAPEZOIDAL ∧
      ( HandSimDevice.setTrapezoidalMode e k).trap_generators = e.trap_generators ∧
      ( HandSimDevice.setTrapezoidalMode e k).trap_start_times = e.trap_start_times) := by
  refine ⟨?_, fun e k => ⟨by simp [HandSimDevice.setTrapezoidalMode, HandSimDevice.setMode],
    rfl, rfl⟩⟩
  by_cases hrun : d.run_mode = RunMode.RUN
  · by_cases hsize : wellSized p d
    · by_cases hi : i < 4
      · cases hp : p.joint_cmd_in with
        | none =>
          exact absurd ((writeDevice_none_mode c p d hrun hsize hp i hi).symm.trans hnew) hold
        | some u =>
          obtain ⟨f, g⟩ := writeDevice_unified_slot c p d u i hrun hsize hp hi
          by_cases hall : ∀ k, k ≤ i → muxRecognised (u.mode k)
          · obtain ⟨fs, fi, ft⟩ := f hall
            by_cases hs : u.mode i = Mode.MODE_SAME
            · exact absurd ((fs hs).1.symm.trans hnew) hold
            · by_cases hidle : u.mode i = Mode.MODE_IDLE
              · have := (fi hidle).1
                rw [hnew] at this
                cases this
              · have htrap : u.mode i = Mode.MODE_TRAPEZOIDAL :=
                  ((ft hs hidle).1).symm.trans hnew
                obtain ⟨-, -, -, l4⟩ := reached_length c p d i hsize
                obtain ⟨st1, hstep, -, q2, -, q4, q5⟩ :=
                  writeDeviceFinger_trapezoidal c u i (reached c p d i) hi (by omega) htrap
                rw [← hp] at hstep
                have hat := writeDevice_at c p d hrun hsize hi
                  (fun tmp htmp j hj => by
                    rw [hp] at htmp
                    cases htmp
                    exact hall j (le_of_lt hj))
                  st1 hstep
                unfold sameSlot at hat
                constructor
                · rw [hat.2.1, hat.2.2.2.2.2.2.1, q4, q2]
                  exact reached_reinitialised c p d i _
                · rw [hat.2.2.2.2.2.2.2]
                  exact q5
          · exact absurd ((g hall).1.symm.trans hnew) hold
      · exact absurd ((writeDevice_beyond c p d hrun hsize i (by omega)).1.symm.trans hnew) hold
    · rw [writeDevice_mismatch c p d hrun hsize] at hnew
      exact absurd hnew hold
  · exact absurd (writeDevice_init_mode c p d hrun i hnew) hold

/-- Witness of amended C13: a unified Trapezoidal command with target 1 takes the
idle finger 0 into Trapezoidal mode with the profile from 0.5 to 1 started at time 9. -/
theorem C13_unified_entry :
    (writeDevice clockAt9 unifiedTrap1 idleAtHalf).trap_generators 0 =
      { maxvel := 1, maxacc := 0.1, startpos := 0.5, endpos := 1 } ∧
    (writeDevice clockAt9 unifiedTrap1 idleAtHalf).trap_start_times 0 = 9 := by
  obtain ⟨⟨h1, h2⟩, -⟩ :=
    C13_mux_entry_reinit clockAt9 unifiedTrap1 idleAtHalf 0 (by decide) rfl
  have hc : (writeDevice clockAt9 unifiedTrap1 idleAtHalf).joint_cmd.cmd 0 = 1 := rfl
  refine ⟨?_, h2⟩
  rw [h1, hc]
  rfl

/-- C14, amended: starting from the state produced by `initialize`, if the velocities
of all eight joints are below 0.01 (in particular 0.005) in every cycle, the run mode
is Run after four consecutive `writeDevice` cycles; after three it is still
Initialize with sub-state InitClose, and after any three or fewer cycles it is
Initialize whatever the inputs are. -/
theorem C14_four_cycles (d : HandSimDevice) (x1 x2 x3 x4 : Collaborators × Ports)
    (hv : ∀ j, j < 8 → d.joint_velocity j < 0.01) :
    (writeDeviceCycles [x1, x2, x3, x4] ( HandSimDevice.initialize d)).run_mode = RunMode.RUN ∧
    (writeDeviceCycles [x1, x2, x3] ( HandSimDevice.initialize d)).run_mode =
      RunMode.INITIALIZE ∧
    (writeDeviceCycles [x1, x2, x3] ( HandSimDevice.initialize d)).init_state =
      InitState.INIT_CLOSE ∧
    ∀ xs : List (Collaborators × Ports), xs.length ≤ 3 →
      (writeDeviceCycles xs ( HandSimDevice.initialize d)).run_mode = RunMode.INITIALIZE := by
  have e0 : ( HandSimDevice.initialize d).run_mode = RunMode.INITIALIZE := rfl
  have s0 : ( HandSimDevice.initialize d).init_state = InitState.INIT_FINGERS := rfl
  have v0 : ∀ j, j < 8 → ( HandSimDevice.initialize d).joint_velocity j < 0.01 := hv
  obtain ⟨w1, t1, -⟩ := writeDevice_init_slow x1.1 x1.2 _ e0 v0
  obtain ⟨e1, s1⟩ := t1 s0
  have v1 : ∀ j, j < 8 → (writeDevice x1.1 x1.2 ( HandSimDevice.initialize d)).joint_velocity j
      < 0.01 := by rw [w1]; exact v0
  obtain ⟨w2, -, t2, -⟩ := writeDevice_init_slow x2.1 x2.2 _ e1 v1
  obtain ⟨e2, s2⟩ := t2 s1
  have v2 : ∀ j, j < 8 → (writeDevice x2.1 x2.2
      (writeDevice x1.1 x1.2 ( HandSimDevice.initialize d))).joint_velocity j < 0.01 := by
    rw [w2]; exact v1
  obtain ⟨w3, -, -, t3, -⟩ := writeDevice_init_slow x3.1 x3.2 _ e2 v2
  obtain ⟨e3, s3⟩ := t3 s2
  have v3 : ∀ j, j < 8 → (writeDevice x3.1 x3.2 (writeDevice x2.1 x2.2
      (writeDevice x1.1 x1.2 ( HandSimDevice.initialize d)))).joint_velocity j < 0.01 := by
    rw [w3]; exact v2
  obtain ⟨-, -, -, -, t4⟩ := writeDevice_init_slow x4.1 x4.2 _ e3 v3
  refine ⟨t4 s3, e3, s3, ?_⟩
  intro xs hxs
  exact writeDeviceCycles_still_init xs _ e0 (by rw [s0]; exact hxs)

/-- Counterexample to C14 as stated: with all eight joint velocities at 0.005 the run
mode is still Initialize after 0, 1, 2 and 3 cycles from the state that `initialize`
produces. -/
theorem C14_counterexample :
    (∀ j, j < 8 → slowHand.joint_velocity j = 0.005) ∧
    (writeDeviceCycles [] ( HandSimDevice.initialize slowHand)).run_mode =
        RunMode.INITIALIZE ∧
      (writeDeviceCycles [silentCycle] ( HandSimDevice.initialize slowHand)).run_mode =
        RunMode.INITIALIZE ∧
      (writeDeviceCycles [silentCycle, silentCycle]
        ( HandSimDevice.initialize slowHand)).run_mode = RunMode.INITIALIZE ∧
      (writeDeviceCycles [silentCycle, silentCycle, silentCycle]
        ( HandSimDevice.initialize slowHand)).run_mode = RunMode.INITIALIZE :=
  ⟨fun _ _ => rfl,
    writeDeviceCycles_still_init [] _ rfl (by decide),
    writeDeviceCycles_still_init [silentCycle] _ rfl (by decide),
    writeDeviceCycles_still_init [silentCycle, silentCycle] _ rfl (by decide),
    writeDeviceCycles_still_init [silentCycle, silentCycle, silentCycle] _ rfl (by decide)⟩

/-- Witness of amended C14: the hand with all velocities at 0.005 is in the run mode
Run after four cycles. -/
theorem C14_slow_hand :
    (writeDeviceCycles [silentCycle, silentCycle, silentCycle, silentCycle]
      ( HandSimDevice.initialize slowHand)).run_mode = RunMode.RUN :=
  (C14_four_cycles slowHand silentCycle silentCycle silentCycle silentCycle
    (by intro j _; norm_num [slowHand, restDevice])).1

/-- C15 at a failing input: one cycle from Initialize / InitFingers moves the sub-state
to SeekFingers, but fingers 0, 1 and 2 keep Idle mode and setpoint 0; `open`, which
would put them in Velocity mode with setpoint -1, is not called. -/
theorem C15_no_open_command :
    (writeDevice silentCycle.1 silentCycle.2
        ( HandSimDevice.initialize restDevice)).init_state = InitState.SEEK_FINGERS ∧
    (∀ i, i < 3 →
      (writeDevice silentCycle.1 silentCycle.2
        ( HandSimDevice.initialize restDevice)).joint_cmd.mode i = Mode.MODE_IDLE ∧
      (writeDevice silentCycle.1 silentCycle.2
        ( HandSimDevice.initialize restDevice)).joint_cmd.cmd i = 0) ∧
    (∀ i, i < 3 →
      ( HandSimDevice.open ( HandSimDevice.initialize restDevice)).joint_cmd.mode i =
        Mode.MODE_VELOCITY ∧
      ( HandSimDevice.open ( HandSimDevice.initialize restDevice)).joint_cmd.cmd i = -1) := by
  refine ⟨rfl, ?_, ?_⟩
  · intro i _
    exact ⟨rfl, rfl⟩
  · intro i hi
    interval_cases i <;> exact ⟨rfl, rfl⟩

/-- C16: after `idle`, for every list of subsequent `writeDevice` cycles and inputs,
the run mode is Idle, every finger mode is Idle and the setpoints are those before
`idle`; a `writeSim` cycle in that state computes torque 0 for the four fingers and
writes force 0 to the medial joints 2, 3 and 4, whatever the setpoints and torque
switches are. -/
theorem C16_idle_stable (d : HandSimDevice) (xs : List (Collaborators × Ports))
    (c : Collaborators) :
    (writeDeviceCycles xs ( HandSimDevice.idle d)).run_mode = RunMode.IDLE ∧
    (∀ i, (writeDeviceCycles xs ( HandSimDevice.idle d)).joint_cmd.mode i = Mode.MODE_IDLE) ∧
    (writeDeviceCycles xs ( HandSimDevice.idle d)).joint_cmd.cmd = d.joint_cmd.cmd ∧
    (∀ i, i < 4 → fingerTorque c (writeDeviceCycles xs ( HandSimDevice.idle d)) i = some 0) ∧
    (∀ i, i < 3 →
      (writeSim c (writeDeviceCycles xs ( HandSimDevice.idle d))).force (i + 2) = some 0) := by
  rw [writeDeviceCycles_idle xs _ rfl]
  refine ⟨rfl, fun _ => rfl, rfl, fun i _ => fingerTorque_idle c _ i rfl, ?_⟩
  intro i hi
  obtain ⟨-, -, -, -, h5, -⟩ :=
    writeSim_finger c ( HandSimDevice.idle d) hi (fun j _ => simRecognised_idle rfl)
      (fingerTorque_idle c _ i rfl)
  rw [medialOf_finger hi] at h5
  rw [h5]
  exact (torqueSwitch_zero c _ i hi).1

/-- Witness of C16: two cycles with new commands after `idle` leave the run mode Idle
and the medial joint of finger 0 gets force 0 although its link torque is 3. -/
theorem C16_after_two_cycles :
    (writeDeviceCycles [(linkTorque3, velocityHalf), (linkTorque3, torque7)]
      ( HandSimDevice.idle torqueScenario)).run_mode = RunMode.IDLE ∧
    (writeSim linkTorque3 (writeDeviceCycles [(linkTorque3, velocityHalf), (linkTorque3, torque7)]
      ( HandSimDevice.idle torqueScenario))).force 2 = some 0 :=
  ⟨(C16_idle_stable torqueScenario [(linkTorque3, velocityHalf), (linkTorque3, torque7)]
      linkTorque3).1,
    (C16_idle_stable torqueScenario [(linkTorque3, velocityHalf), (linkTorque3, torque7)]
      linkTorque3).2.2.2.2 0 (by decide)⟩

/-- Counterexample to C17 as stated: every finger is idle, joint 2 is at 0.3 and joint
0 at 0.1.  The distal joint 5 receives the coupling force 10 * ((1/3) * 0.3 - 0) = 1
and the spread joints 0 and 1 receive -10 and 10. -/
theorem C17_counterexample :
    (∀ i, i < 4 → idleBent.joint_cmd.mode i = Mode.MODE_IDLE) ∧
    (writeSim (quietCollaborators fun _ => 0) idleBent).force 5 = some 1 ∧
    (writeSim (quietCollaborators fun _ => 0) idleBent).force 0 = some (-10) ∧
    (writeSim (quietCollaborators fun _ => 0) idleBent).force 1 = some 10 := by
  have hidle : ∀ j, simRecognised (idleBent.joint_cmd.mode j) :=
    fun _ => simRecognised_idle rfl
  obtain ⟨-, -, -, -, -, h6⟩ :=
    writeSim_finger (quietCollaborators fun _ => 0) idleBent (by decide : 0 < 3)
      (fun j _ => hidle j) (fingerTorque_idle _ idleBent 0 rfl)
  obtain ⟨-, -, -, -, s5, s6⟩ :=
    writeSim_spread (quietCollaborators fun _ => 0) idleBent (fun j _ => hidle j)
      (fingerTorque_idle _ idleBent 3 rfl)
  rw [distalOf_finger (by decide)] at h6
  rw [medialOf_spread] at s5
  rw [distalOf_spread] at s6
  refine ⟨fun _ _ => rfl, ?_, ?_, ?_⟩
  · rw [h6]
    norm_num [torqueSwitchOutput, torqueSwitchUpdate, SimState.SetForce, medialOf, distalOf,
      fingerToJointIDs, idleBent, restDevice, quietCollaborators, Function.update,
      KNUCKLE_GAIN, FINGER_JOINT_RATIO]
  · rw [s5]
    norm_num [writeSimSpread, SimState.SetForce, idleBent, restDevice, Function.update]
  · rw [s6]
    norm_num [writeSimSpread, SimState.SetForce, idleBent, restDevice, Function.update]

/-- C17, amended: when the four fingers are in Idle mode a `writeSim` cycle writes a
force to each of the eight joints; the forces on the medial joints 2, 3, 4 are zero;
joints 0 and 1 receive the spread constraint `-100*(p0 - p1)` and `100*(p0 - p1)`;
the distal joint `i + 5` receives the coupling force
`10 * ((1/3) * medial position - distal position)` when finger `i` is Coupled after
the switch update and the hold force `10 * (breakaway_angle[i] - distal position)`
when it is in Breakaway. -/
theorem C17_idle_forces (c : Collaborators) (d : HandSimDevice)
    (hidle : ∀ i, i < 4 → d.joint_cmd.mode i = Mode.MODE_IDLE) :
    (∀ j, j < 8 → ∃ f, (writeSim c d).force j = some f) ∧
    (∀ i, i < 3 → (writeSim c d).force (i + 2) = some 0) ∧
    (writeSim c d).force 0 = some (-(100 * (d.joint_position 0 - d.joint_position 1))) ∧
    (writeSim c d).force 1 = some (100 * (d.joint_position 0 - d.joint_position 1)) ∧
    (∀ i, i < 3 →
      ((writeSim c d).dev.torque_switches i = false →
        (writeSim c d).force (i + 5) =
          some (10 * ((1 / 3) * d.joint_position (i + 2) - d.joint_position (i + 5)))) ∧
      ((writeSim c d).dev.torque_switches i = true →
        (writeSim c d).force (i + 5) =
          some (10 * (d.breakaway_angle i - d.joint_position (i + 5))))) := by
  have hrec : ∀ j, j < 4 → simRecognised (d.joint_cmd.mode j) :=
    fun j hj => simRecognised_idle (hidle j hj)
  have hmed : ∀ i, i < 3 → (writeSim c d).force (i + 2) = some 0 := by
    intro i hi
    obtain ⟨-, -, -, -, h5, -⟩ :=
      writeSim_finger c d hi (fun j hj => hrec j (by omega))
        (fingerTorque_idle c d i (hidle i (by omega)))
    rw [medialOf_finger hi] at h5
    rw [h5]
    exact (torqueSwitch_zero c d i hi).1
  have hdis : ∀ i, i < 3 →
      ((writeSim c d).dev.torque_switches i = false →
        (writeSim c d).force (i + 5) =
          some (10 * ((1 / 3) * d.joint_position (i + 2) - d.joint_position (i + 5)))) ∧
      ((writeSim c d).dev.torque_switches i = true →
        (writeSim c d).force (i + 5) =
          some (10 * (d.breakaway_angle i - d.joint_position (i + 5)))) := by
    intro i hi
    obtain ⟨h1, -, -, -, -, h6⟩ :=
      writeSim_finger c d hi (fun j hj => hrec j (by omega))
        (fingerTorque_idle c d i (hidle i (by omega)))
    rw [distalOf_finger hi] at h6
    rw [h1, h6]
    exact torqueSwitch_zero_distal c d i hi
  obtain ⟨-, -, -, -, s5, s6⟩ :=
    writeSim_spread c d (fun j hj => hrec j (by omega))
      (fingerTorque_idle c d 3 (hidle 3 (by decide)))
  rw [medialOf_spread] at s5
  rw [distalOf_spread] at s6
  have h0 : (writeSim c d).force 0 =
      some (-(100 * (d.joint_position 0 - d.joint_position 1))) := by
    rw [s5]
    simp [writeSimSpread, SimState.SetForce, Function.update]
  have h1 : (writeSim c d).force 1 =
      some (100 * (d.joint_position 0 - d.joint_position 1)) := by
    rw [s6]
    simp [writeSimSpread, SimState.SetForce, Function.update]
  refine ⟨?_, hmed, h0, h1, hdis⟩
  intro j hj
  have hcase : j = 0 ∨ j = 1 ∨ (∃ i, i < 3 ∧ j = i + 2) ∨ (∃ i, i < 3 ∧ j = i + 5) := by
    interval_cases j
    · exact Or.inl rfl
    · exact Or.inr (Or.inl rfl)
    · exact Or.inr (Or.inr (Or.inl ⟨0, by decide, rfl⟩))
    · exact Or.inr (Or.inr (Or.inl ⟨1, by decide, rfl⟩))
    · exact Or.inr (Or.inr (Or.inl ⟨2, by decide, rfl⟩))
    · exact Or.inr (Or.inr (Or.inr ⟨0, by decide, rfl⟩))
    · exact Or.inr (Or.inr (Or.inr ⟨1, by decide, rfl⟩))
    · exact Or.inr (Or.inr (Or.inr ⟨2, by decide, rfl⟩))
  rcases hcase with h | h | ⟨i, hi, h⟩ | ⟨i, hi, h⟩
  · exact ⟨_, h ▸ h0⟩
  · exact ⟨_, h ▸ h1⟩
  · exact ⟨_, h ▸ hmed i hi⟩
  · subst h
    cases hsw : (writeSim c d).dev.torque_switches i with
    | false => exact ⟨_, (hdis i hi).1 hsw⟩
    | true => exact ⟨_, (hdis i hi).2 hsw⟩

/-- Witness of amended C17: the three medial forces of the idle bent hand are zero. -/
theorem C17_idle_bent :
    (writeSim (quietCollaborators fun _ => 0) idleBent).force 2 = some 0 ∧
    (writeSim (quietCollaborators fun _ => 0) idleBent).force 3 = some 0 ∧
    (writeSim (quietCollaborators fun _ => 0) idleBent).force 4 = some 0 :=
  ⟨(C17_idle_forces (quietCollaborators fun _ => 0) idleBent (fun _ _ => rfl)).2.1 0
      (by decide),
    (C17_idle_forces (quietCollaborators fun _ => 0) idleBent (fun _ _ => rfl)).2.1 1
      (by decide),
    (C17_idle_forces (quietCollaborators fun _ => 0) idleBent (fun _ _ => rfl)).2.1 2
      (by decide)⟩

/-- C18 at a failing input: joints 2..7 move at -1, the velocity that the open
command asks for.  `doneMoving(0)` is true although the medial joint of finger 0
moves with magnitude 1, and a cycle in the sub-state SeekFingers goes on to SeekSpread. -/
theorem C18_done_while_moving :
    (openingHand.doneMoving 0 = true ∧ openingHand.joint_velocity 2 = -1 ∧
      ¬ |openingHand.joint_velocity 2| < 0.01) ∧
    (writeDevice silentCycle.1 silentCycle.2 openingHand).init_state =
      InitState.SEEK_SPREAD := by
  refine ⟨⟨?_, rfl, ?_⟩, ?_⟩
  · simp [HandSimDevice.doneMoving, fingerToJointIDs, openingHand, restDevice]
    norm_num
  · norm_num [openingHand, restDevice]
  · have h : ∀ i, i < 3 → openingHand.doneMoving i = true := by
      intro i hi
      interval_cases i <;>
        simp [HandSimDevice.doneMoving, fingerToJointIDs, openingHand, restDevice] <;> norm_num
    simp [writeDevice, openingHand, restDevice] at h ⊢
    simp [h 0 (by decide), h 1 (by decide), h 2 (by decide)]

/-- Counterexample to C19 as stated: finger 0 is idle (torque 0) and Coupled, its
distal joint is at 0.2 and the link torque 3 engages the switch.  After the cycle
`breakaway_angle[0]` is still 0, not 0.2, and the hold force 10 * (0 - 0.2) is written
with it. -/
theorem C19_counterexample :
    idlePushed.torque_switches 0 = false ∧
    (writeSim linkTorque3 idlePushed).dev.torque_switches 0 = true ∧
    idlePushed.joint_position 5 = 0.2 ∧
    (writeSim linkTorque3 idlePushed).dev.breakaway_angle 0 = 0 ∧
    (writeSim linkTorque3 idlePushed).force 5 = some (10 * (0 - 0.2)) := by
  have htau : fingerTorque linkTorque3 idlePushed 0 = some 0 :=
    fingerTorque_idle _ idlePushed 0 rfl
  obtain ⟨h1, h2, -, -, -, h6⟩ :=
    writeSim_finger linkTorque3 idlePushed (by decide : 0 < 3) (by intro j hj; omega) htau
  rw [distalOf_finger (by decide)] at h6
  refine ⟨rfl, ?_, rfl, ?_, ?_⟩
  · rw [h1]
    norm_num [torqueSwitchOutput, torqueSwitchUpdate, SimState.SetForce, medialOf, distalOf,
      fingerToJointIDs, idlePushed, restDevice, linkTorque3, quietCollaborators,
      Function.update]
  · rw [h2]
    norm_num [torqueSwitchOutput, torqueSwitchUpdate, SimState.SetForce, medialOf, distalOf,
      fingerToJointIDs, idlePushed, restDevice, linkTorque3, quietCollaborators,
      Function.update]
  · rw [h6]
    norm_num [torqueSwitchOutput, torqueSwitchUpdate, SimState.SetForce, medialOf, distalOf,
      fingerToJointIDs, idlePushed, restDevice, linkTorque3, quietCollaborators,
      Function.update, KNUCKLE_GAIN]

/-- C19, amended: for a finger `i < 3` and a cycle in which its switch goes from
Coupled to Breakaway: with finger-level torque `> 0`, `breakaway_angle[i]` after the
cycle is the distal joint position read in that cycle; with torque `<= 0`,
`breakaway_angle[i]` is unchanged and the hold force of that cycle is computed from
it. -/
theorem C19_latch_while_closing (c : Collaborators) (d : HandSimDevice) (i : Nat) (tau : ℚ)
    (hi : i < 3) (hrec : ∀ j, j < i → simRecognised (d.joint_cmd.mode j))
    (hcoupled : d.torque_switches i = false)
    (htau : fingerTorque c d i = some tau)
    (hengage : (writeSim c d).dev.torque_switches i = true) :
    (tau > 0 → (writeSim c d).dev.breakaway_angle i = d.joint_position (i + 5)) ∧
    (¬ tau > 0 →
      (writeSim c d).dev.breakaway_angle i = d.breakaway_angle i ∧
      (writeSim c d).force (i + 5) =
        some (10 * (d.breakaway_angle i - d.joint_position (i + 5)))) := by
  obtain ⟨h1, h2, -, -, -, h6⟩ := writeSim_finger c d hi hrec htau
  rw [distalOf_finger hi] at h6
  rw [h1] at hengage
  rw [h2, h6]
  revert hengage
  unfold torqueSwitchOutput torqueSwitchUpdate SimState.SetForce
  simp only [medialOf_finger hi, distalOf_finger hi, hcoupled, KNUCKLE_GAIN]
  intro hengage
  constructor <;> intro h <;> split_ifs at hengage ⊢ <;> simp_all [Function.update]

/-- Witness of amended C19: finger 0 closing with torque 5 engages at link torque 3
and latches the distal position 0.2. -/
theorem C19_closing_scenario :
    (writeSim linkTorque3 closingScenario).dev.breakaway_angle 0 = 0.2 := by
  have hsw : (writeSim linkTorque3 closingScenario).dev.torque_switches 0 = true := by
    obtain ⟨h1, -⟩ :=
      writeSim_finger linkTorque3 closingScenario (by decide : 0 < 3) (by intro j hj; omega)
        (rfl : fingerTorque linkTorque3 closingScenario 0 = some 5)
    rw [h1]
    norm_num [torqueSwitchOutput, torqueSwitchUpdate, SimState.SetForce, medialOf, distalOf,
      fingerToJointIDs, closingScenario, torqueScenario, restDevice, linkTorque3,
      quietCollaborators, Function.update]
  exact (C19_latch_while_closing linkTorque3 closingScenario 0 5 (by decide)
    (by intro j hj; omega) rfl rfl hsw).1 (by norm_num)

/-- C20 at two failing inputs: with torque 0 and limit 1.5 `withinTorqueLimits(0)` is
false although the torque is within its limit; with torque 2 it is true although the
limit is exceeded. -/
theorem C20_within_limits_inverted :
    (|restDevice.joint_torque 0| ≤ restDevice.joint_torque_max 0 ∧
      restDevice.withinTorqueLimits 0 = false) ∧
    (¬ |overloadedHand.joint_torque 0| ≤ overloadedHand.joint_torque_max 0 ∧
      overloadedHand.withinTorqueLimits 0 = true) := by
  refine ⟨⟨?_, ?_⟩, ?_, ?_⟩
  · norm_num [restDevice]
  · simp [HandSimDevice.withinTorqueLimits, restDevice]
    norm_num
  · norm_num [overloadedHand, restDevice]
  · simp [HandSimDevice.withinTorqueLimits, overloadedHand, restDevice]
    norm_num

end oro_barrett_sim
